import Mathlib

/-!
Shallow embedding of the RV32IM emulator (decoder, ALU, memory, register
file, single-cycle CPU, five-stage pipeline, two-pass assembler) and proofs
about it.  Machine words are `Nat` values kept below `2^32` by explicit
reduction; signed views are `Int`.  Stateful C++ code is modelled by
explicit state passing.  Aspects with no observable effect on the verified
properties (debug printing, disassembly text, memory access counters,
breakpoint bookkeeping, the PC→source map) are omitted from the state.
-/

namespace RV32

/-- `2^32`, the word modulus. -/
def W32 : Nat := 4294967296

/-- Wrap a natural number to a 32-bit word (C++ conversion to `uint32_t`). -/
def wrap (n : Nat) : Nat := n % W32

/-- Signed reinterpretation of a 32-bit word (`static_cast<SignedWord>`). -/
def toSigned (w : Nat) : Int := if w < 2147483648 then (w : Int) else (w : Int) - 4294967296

/-- Conversion of a signed value to a 32-bit word (`static_cast<Word>`),
i.e. reduction modulo `2^32`. -/
def toWord (i : Int) : Nat := (i % (4294967296 : Int)).toNat

/-- C++ `x & m` with `m = 2^w - 1` applied to a (possibly negative)
two's-complement `int`: the low `w` bits, i.e. `x mod 2^w`. -/
def lowBits (x : Int) (w : Nat) : Nat := (x % ((2 : Int) ^ w)).toNat

/-- `sign_extend` from common.hpp: sign extend `value` from `bits` bits to a
32-bit signed value.  `~((1U << bits) - 1)` is `2^32 - 2^bits`. -/
def sign_extend (value : Nat) (bits : Nat) : Int :=
  if value &&& (1 <<< (bits - 1)) ≠ 0 then
    toSigned ((value ||| (W32 - (1 <<< bits))) % W32)
  else
    toSigned (value % W32)

-- =============================================================================
-- Memory (memory.cpp): sparse address → byte map, little endian.
-- Modelled as a total function with default 0 (unmapped reads return 0).
-- The read/write statistics counters are omitted.
-- =============================================================================

/-- Memory layout constants from memory.hpp. -/
def TEXT_BASE : Nat := 0x00000000

def DATA_BASE : Nat := 0x10000000

def STACK_TOP : Nat := 0x7FFFFFF0

/-- Byte-addressable memory. -/
def Mem : Type := Nat → Nat

def Mem.empty : Mem := fun _ => 0

def read_byte (m : Mem) (addr : Nat) : Nat := m (wrap addr)

def write_byte (m : Mem) (addr value : Nat) : Mem :=
  fun a => if a = wrap addr then value % 256 else m a

def read_half (m : Mem) (addr : Nat) : Nat :=
  read_byte m addr ||| (read_byte m (addr + 1)) <<< 8

def write_half (m : Mem) (addr value : Nat) : Mem :=
  write_byte (write_byte m addr (value &&& 0xFF)) (addr + 1) ((value >>> 8) &&& 0xFF)

def read_word (m : Mem) (addr : Nat) : Nat :=
  read_byte m addr |||
  (read_byte m (addr + 1)) <<< 8 |||
  (read_byte m (addr + 2)) <<< 16 |||
  (read_byte m (addr + 3)) <<< 24

def write_word (m : Mem) (addr value : Nat) : Mem :=
  write_byte (write_byte (write_byte (write_byte m
    addr (value &&& 0xFF))
    (addr + 1) ((value >>> 8) &&& 0xFF))
    (addr + 2) ((value >>> 16) &&& 0xFF))
    (addr + 3) ((value >>> 24) &&& 0xFF)

def read_byte_signed (m : Mem) (addr : Nat) : Int :=
  sign_extend (read_byte m addr) 8

def read_half_signed (m : Mem) (addr : Nat) : Int :=
  sign_extend (read_half m addr) 16

def write_block (m : Mem) (addr : Nat) (words : List Nat) : Mem :=
  match words with
  | [] => m
  | w :: ws => write_block (write_word m addr w) (addr + 4) ws

-- =============================================================================
-- Register file (register_file.cpp): 32 words, x0 hard-wired to zero.
-- =============================================================================

def Regs : Type := Nat → Nat

def Regs.zero : Regs := fun _ => 0

def regs_read (r : Regs) (reg : Nat) : Nat := if reg = 0 then 0 else r reg

def regs_write (r : Regs) (reg value : Nat) : Regs :=
  if reg ≠ 0 then (fun x => if x = reg then value else r x) else r

-- =============================================================================
-- Instruction record (common.hpp).  The disassembly `text` field is omitted.
-- =============================================================================

inductive Format where
  | R | I | S | B | U | J | UNKNOWN
  deriving DecidableEq

inductive AluOp where
  | ADD | SUB
  | SLL | SRL | SRA
  | SLT | SLTU
  | XOR | OR | AND
  | MUL | MULH | MULHSU | MULHU
  | DIV | DIVU | REM | REMU
  | PASS_B
  | NONE
  deriving DecidableEq

inductive InsType where
  | ADD | SUB | SLL | SLT | SLTU | XOR | SRL | SRA | OR | AND
  | ADDI | SLTI | SLTIU | XORI | ORI | ANDI | SLLI | SRLI | SRAI
  | LB | LH | LW | LBU | LHU
  | SB | SH | SW
  | BEQ | BNE | BLT | BGE | BLTU | BGEU
  | JAL | JALR
  | LUI | AUIPC
  | MUL | MULH | MULHSU | MULHU | DIV | DIVU | REM | REMU
  | ECALL | EBREAK
  | UNKNOWN
  deriving DecidableEq

structure Instruction where
  raw : Nat := 0x00000013
  type : InsType := InsType.ADDI
  format : Format := Format.I
  rd : Nat := 0
  rs1 : Nat := 0
  rs2 : Nat := 0
  imm : Int := 0
  reg_write : Bool := false
  mem_read : Bool := false
  mem_write : Bool := false
  mem_to_reg : Bool := false
  branch : Bool := false
  jump : Bool := false
  alu_src : Bool := false
  alu_op : AluOp := AluOp.NONE
  pc : Nat := 0
  deriving DecidableEq

def Instruction.is_nop (i : Instruction) : Bool :=
  i.raw = 0x00000013 || i.raw = 0

-- =============================================================================
-- Decoder (decoder.cpp)
-- =============================================================================

/-- `Decoder::bits`: extract bits `hi..lo` of `val`. -/
def bits (val : Nat) (hi lo : Nat) : Nat :=
  (val >>> lo) &&& ((1 <<< (hi - lo + 1)) - 1)

def get_rd (raw : Nat) : Nat := bits raw 11 7
def get_rs1 (raw : Nat) : Nat := bits raw 19 15
def get_rs2 (raw : Nat) : Nat := bits raw 24 20
def get_funct3 (raw : Nat) : Nat := bits raw 14 12
def get_funct7 (raw : Nat) : Nat := bits raw 31 25

def imm_i (raw : Nat) : Int := sign_extend (bits raw 31 20) 12

def imm_s (raw : Nat) : Int :=
  sign_extend ((bits raw 31 25 <<< 5) ||| bits raw 11 7) 12

def imm_b (raw : Nat) : Int :=
  sign_extend ((bits raw 31 31 <<< 12) |||
               (bits raw 7 7 <<< 11) |||
               (bits raw 30 25 <<< 5) |||
               (bits raw 11 8 <<< 1)) 13

def imm_u (raw : Nat) : Int := toSigned (raw &&& 0xFFFFF000)

def imm_j (raw : Nat) : Int :=
  sign_extend ((bits raw 31 31 <<< 20) |||
               (bits raw 19 12 <<< 12) |||
               (bits raw 20 20 <<< 11) |||
               (bits raw 30 21 <<< 1)) 21

def OP_LUI : Nat := 0b0110111
def OP_AUIPC : Nat := 0b0010111
def OP_JAL : Nat := 0b1101111
def OP_JALR : Nat := 0b1100111
def OP_BRANCH : Nat := 0b1100011
def OP_LOAD : Nat := 0b0000011
def OP_STORE : Nat := 0b0100011
def OP_IMM : Nat := 0b0010011
def OP_REG : Nat := 0b0110011
def OP_SYSTEM : Nat := 0b1110011

/-- `Decoder::decode`: a 32-bit word plus fetch PC to the decoded record.  The
record starts from the defaulted `Instruction` (as the C++ default member
initializers do) and each opcode case sets exactly the fields the source sets. -/
def decode (raw : Nat) (pc : Nat) : Instruction :=
  let base : Instruction :=
    { raw := raw, pc := pc, rd := get_rd raw, rs1 := get_rs1 raw, rs2 := get_rs2 raw }
  let opcode := bits raw 6 0
  let funct3 := get_funct3 raw
  let funct7 := get_funct7 raw
  if opcode = OP_LUI then
    { base with type := InsType.LUI, format := Format.U, imm := imm_u raw,
                reg_write := true, alu_src := true, alu_op := AluOp.PASS_B }
  else if opcode = OP_AUIPC then
    { base with type := InsType.AUIPC, format := Format.U, imm := imm_u raw,
                reg_write := true, alu_src := true, alu_op := AluOp.ADD }
  else if opcode = OP_JAL then
    { base with type := InsType.JAL, format := Format.J, imm := imm_j raw,
                reg_write := true, jump := true }
  else if opcode = OP_JALR then
    { base with type := InsType.JALR, format := Format.I, imm := imm_i raw,
                reg_write := true, jump := true, alu_src := true, alu_op := AluOp.ADD }
  else if opcode = OP_BRANCH then
    let t : InsType :=
      if funct3 = 0b000 then InsType.BEQ
      else if funct3 = 0b001 then InsType.BNE
      else if funct3 = 0b100 then InsType.BLT
      else if funct3 = 0b101 then InsType.BGE
      else if funct3 = 0b110 then InsType.BLTU
      else if funct3 = 0b111 then InsType.BGEU
      else InsType.UNKNOWN
    { base with type := t, format := Format.B, imm := imm_b raw, branch := true }
  else if opcode = OP_LOAD then
    let t : InsType :=
      if funct3 = 0b000 then InsType.LB
      else if funct3 = 0b001 then InsType.LH
      else if funct3 = 0b010 then InsType.LW
      else if funct3 = 0b100 then InsType.LBU
      else if funct3 = 0b101 then InsType.LHU
      else InsType.UNKNOWN
    { base with type := t, format := Format.I, imm := imm_i raw,
                reg_write := true, mem_read := true, mem_to_reg := true,
                alu_src := true, alu_op := AluOp.ADD }
  else if opcode = OP_STORE then
    let t : InsType :=
      if funct3 = 0b000 then InsType.SB
      else if funct3 = 0b001 then InsType.SH
      else if funct3 = 0b010 then InsType.SW
      else InsType.UNKNOWN
    { base with type := t, format := Format.S, imm := imm_s raw,
                mem_write := true, alu_src := true, alu_op := AluOp.ADD }
  else if opcode = OP_IMM then
    let base2 := { base with format := Format.I, imm := imm_i raw,
                             reg_write := true, alu_src := true }
    if funct3 = 0b000 then { base2 with type := InsType.ADDI, alu_op := AluOp.ADD }
    else if funct3 = 0b010 then { base2 with type := InsType.SLTI, alu_op := AluOp.SLT }
    else if funct3 = 0b011 then { base2 with type := InsType.SLTIU, alu_op := AluOp.SLTU }
    else if funct3 = 0b100 then { base2 with type := InsType.XORI, alu_op := AluOp.XOR }
    else if funct3 = 0b110 then { base2 with type := InsType.ORI, alu_op := AluOp.OR }
    else if funct3 = 0b111 then { base2 with type := InsType.ANDI, alu_op := AluOp.AND }
    else if funct3 = 0b001 then
      { base2 with type := InsType.SLLI, alu_op := AluOp.SLL, imm := (base.rs2 : Int) }
    else if funct3 = 0b101 then
      if funct7 &&& 0x20 ≠ 0 then
        { base2 with type := InsType.SRAI, alu_op := AluOp.SRA, imm := (base.rs2 : Int) }
      else
        { base2 with type := InsType.SRLI, alu_op := AluOp.SRL, imm := (base.rs2 : Int) }
    else { base2 with type := InsType.UNKNOWN }
  else if opcode = OP_REG then
    let base2 := { base with format := Format.R, reg_write := true, imm := (0 : Int) }
    if funct7 = 0x01 then
      if funct3 = 0b000 then { base2 with type := InsType.MUL, alu_op := AluOp.MUL }
      else if funct3 = 0b001 then { base2 with type := InsType.MULH, alu_op := AluOp.MULH }
      else if funct3 = 0b010 then { base2 with type := InsType.MULHSU, alu_op := AluOp.MULHSU }
      else if funct3 = 0b011 then { base2 with type := InsType.MULHU, alu_op := AluOp.MULHU }
      else if funct3 = 0b100 then { base2 with type := InsType.DIV, alu_op := AluOp.DIV }
      else if funct3 = 0b101 then { base2 with type := InsType.DIVU, alu_op := AluOp.DIVU }
      else if funct3 = 0b110 then { base2 with type := InsType.REM, alu_op := AluOp.REM }
      else if funct3 = 0b111 then { base2 with type := InsType.REMU, alu_op := AluOp.REMU }
      else { base2 with type := InsType.UNKNOWN }
    else
      if funct3 = 0b000 then
        if funct7 &&& 0x20 ≠ 0 then { base2 with type := InsType.SUB, alu_op := AluOp.SUB }
        else { base2 with type := InsType.ADD, alu_op := AluOp.ADD }
      else if funct3 = 0b001 then { base2 with type := InsType.SLL, alu_op := AluOp.SLL }
      else if funct3 = 0b010 then { base2 with type := InsType.SLT, alu_op := AluOp.SLT }
      else if funct3 = 0b011 then { base2 with type := InsType.SLTU, alu_op := AluOp.SLTU }
      else if funct3 = 0b100 then { base2 with type := InsType.XOR, alu_op := AluOp.XOR }
      else if funct3 = 0b101 then
        if funct7 &&& 0x20 ≠ 0 then { base2 with type := InsType.SRA, alu_op := AluOp.SRA }
        else { base2 with type := InsType.SRL, alu_op := AluOp.SRL }
      else if funct3 = 0b110 then { base2 with type := InsType.OR, alu_op := AluOp.OR }
      else if funct3 = 0b111 then { base2 with type := InsType.AND, alu_op := AluOp.AND }
      else { base2 with type := InsType.UNKNOWN }
  else if opcode = OP_SYSTEM then
    let base2 := { base with format := Format.I, imm := imm_i raw }
    if imm_i raw = 0 then { base2 with type := InsType.ECALL }
    else if imm_i raw = 1 then { base2 with type := InsType.EBREAK }
    else { base2 with type := InsType.UNKNOWN }
  else
    { base with type := InsType.UNKNOWN, format := Format.UNKNOWN }

-- =============================================================================
-- ALU (alu.cpp)
-- =============================================================================

/-- `ALU::execute`.  `a` and `b` are 32-bit words; `sa`/`sb` their signed
reinterpretations.  C++ arithmetic right shift on a signed int is the
floor-rounding shift, which is `Int` `>>>`; signed division/remainder
truncate toward zero (`Int.tdiv`/`Int.tmod`). -/
def ALU.execute (op : AluOp) (a b : Nat) : Nat :=
  let sa := toSigned a
  let sb := toSigned b
  match op with
  | AluOp.ADD => wrap (a + b)
  | AluOp.SUB => (a + W32 - b % W32) % W32
  | AluOp.SLL => wrap (a <<< (b &&& 0x1F))
  | AluOp.SRL => a >>> (b &&& 0x1F)
  | AluOp.SRA => toWord (sa >>> (b &&& 0x1F))
  | AluOp.SLT => if sa < sb then 1 else 0
  | AluOp.SLTU => if a < b then 1 else 0
  | AluOp.XOR => a ^^^ b
  | AluOp.OR => a ||| b
  | AluOp.AND => a &&& b
  | AluOp.MUL => toWord (sa * sb)
  | AluOp.MULH => lowBits ((sa * sb) >>> (32 : Nat)) 32
  | AluOp.MULHSU => lowBits ((sa * (b : Int)) >>> (32 : Nat)) 32
  | AluOp.MULHU => ((a * b) >>> 32) &&& 0xFFFFFFFF
  | AluOp.DIV =>
      if sb = 0 then 0xFFFFFFFF
      else if sa = -2147483648 ∧ sb = -1 then toWord sa
      else toWord (Int.tdiv sa sb)
  | AluOp.DIVU => if b = 0 then 0xFFFFFFFF else a / b
  | AluOp.REM =>
      if sb = 0 then toWord sa
      else if sa = -2147483648 ∧ sb = -1 then 0
      else toWord (Int.tmod sa sb)
  | AluOp.REMU => if b = 0 then a else a % b
  | AluOp.PASS_B => b
  | AluOp.NONE => 0

/-- `ALU::branch_taken`. -/
def ALU.branch_taken (type : InsType) (rs1_val rs2_val : Nat) : Bool :=
  let s1 := toSigned rs1_val
  let s2 := toSigned rs2_val
  match type with
  | InsType.BEQ => rs1_val = rs2_val
  | InsType.BNE => rs1_val ≠ rs2_val
  | InsType.BLT => s1 < s2
  | InsType.BGE => s1 ≥ s2
  | InsType.BLTU => rs1_val < rs2_val
  | InsType.BGEU => rs1_val ≥ rs2_val
  | _ => false

-- =============================================================================
-- Single-cycle CPU (cpu.cpp).  Breakpoints only affect the bool returned to
-- the run loop, never the state transition; they are omitted (empty set).
-- =============================================================================

structure CPUState where
  mem : Mem
  regs : Regs
  pc : Nat := TEXT_BASE
  cycles : Nat := 0
  instructions : Nat := 0
  halted : Bool := false

/-- `CPU::execute`. -/
def cpu_execute (pc : Nat) (ins : Instruction) (rs1_val rs2_val : Nat) : Nat :=
  let alu_a := if ins.type = InsType.AUIPC then pc else rs1_val
  let alu_b := if ins.alu_src then toWord ins.imm else rs2_val
  ALU.execute ins.alu_op alu_a alu_b

/-- `CPU::memory_access`: the loaded value (or the ALU result when no load),
paired with the possibly-updated memory.  A recognised load returns early in
the source; any other kind falls through to the store check. -/
def cpu_memory_access (m : Mem) (ins : Instruction) (alu_result rs2_val : Nat) :
    Nat × Mem :=
  let addr := alu_result
  let after_write : Mem :=
    if ins.mem_write then
      match ins.type with
      | InsType.SB => write_byte m addr (rs2_val &&& 0xFF)
      | InsType.SH => write_half m addr (rs2_val &&& 0xFFFF)
      | InsType.SW => write_word m addr rs2_val
      | _ => m
    else m
  if ins.mem_read then
    match ins.type with
    | InsType.LB => (toWord (read_byte_signed m addr), m)
    | InsType.LH => (toWord (read_half_signed m addr), m)
    | InsType.LW => (read_word m addr, m)
    | InsType.LBU => (read_byte m addr, m)
    | InsType.LHU => (read_half m addr, m)
    | _ => (alu_result, after_write)
  else (alu_result, after_write)

/-- `CPU::writeback`. -/
def cpu_writeback (r : Regs) (ins : Instruction) (result : Nat) : Regs :=
  if ins.reg_write ∧ ins.rd ≠ 0 then regs_write r ins.rd result else r

/-- `CPU::step`: execute one instruction.  Returns the updated state. -/
def step (s : CPUState) : CPUState :=
  if s.halted then s else
  let raw := read_word s.mem s.pc
  let ins := decode raw s.pc
  if ins.type = InsType.ECALL then
    { s with halted := true, cycles := s.cycles + 1, instructions := s.instructions + 1 }
  else
    let rs1_val := regs_read s.regs ins.rs1
    let rs2_val := regs_read s.regs ins.rs2
    let alu_result0 := cpu_execute s.pc ins rs1_val rs2_val
    let next_pc :=
      if ins.jump then
        if ins.type = InsType.JAL then toWord ((s.pc : Int) + ins.imm)
        else if ins.type = InsType.JALR then
          toWord ((rs1_val : Int) + ins.imm) &&& 0xFFFFFFFE
        else wrap (s.pc + 4)
      else if ins.branch then
        if ALU.branch_taken ins.type rs1_val rs2_val then toWord ((s.pc : Int) + ins.imm)
        else wrap (s.pc + 4)
      else wrap (s.pc + 4)
    let alu_result :=
      if ins.jump ∧ (ins.type = InsType.JAL ∨ ins.type = InsType.JALR) then
        wrap (s.pc + 4)
      else alu_result0
    let mr := cpu_memory_access s.mem ins alu_result rs2_val
    let wb_result := if ins.mem_to_reg then mr.1 else alu_result
    { s with
      mem := mr.2
      regs := cpu_writeback s.regs ins wb_result
      pc := next_pc
      cycles := s.cycles + 1
      instructions := s.instructions + 1 }

/-- `CPU::run` bounded by fuel: iterate `step`.  A halted state is a fixed
point of `step`, so any sufficiently large fuel gives the completed run. -/
def cpuRun (fuel : Nat) (s : CPUState) : CPUState :=
  match fuel with
  | 0 => s
  | n + 1 => cpuRun n (step s)

-- =============================================================================
-- Pipeline latches (common.hpp).  The default field values are exactly the
-- values `flush()` resets to.
-- =============================================================================

structure IF_ID where
  instruction : Nat := 0x13
  pc : Nat := 0
  next_pc : Nat := 4
  valid : Bool := false

def IF_ID.flush : IF_ID := {}

structure ID_EX where
  ins : Instruction := {}
  rs1_val : Nat := 0
  rs2_val : Nat := 0
  pc : Nat := 0
  next_pc : Nat := 4
  valid : Bool := false

def ID_EX.flush : ID_EX := {}

structure EX_MEM where
  ins : Instruction := {}
  alu_result : Nat := 0
  rs2_val : Nat := 0
  branch_target : Nat := 0
  branch_taken : Bool := false
  valid : Bool := false

def EX_MEM.flush : EX_MEM := {}

structure MEM_WB where
  ins : Instruction := {}
  alu_result : Nat := 0
  mem_data : Nat := 0
  valid : Bool := false

def MEM_WB.flush : MEM_WB := {}

inductive Forward where
  | NONE
  | EX_MEM
  | MEM_WB
  deriving DecidableEq

-- =============================================================================
-- Pipeline (pipeline.cpp).  The state transition of `cycle` never depends on
-- the breakpoint set (it only affects the bool returned to the run loop), so
-- breakpoints are omitted.
-- =============================================================================

structure Pipeline where
  mem : Mem
  regs : Regs
  if_id : IF_ID := {}
  id_ex : ID_EX := {}
  ex_mem : EX_MEM := {}
  mem_wb : MEM_WB := {}
  pc : Nat := TEXT_BASE
  next_pc : Nat := TEXT_BASE + 4
  hazard_detection : Bool := true
  forwarding : Bool := true
  halted : Bool := false
  stalled : Bool := false
  cycles : Nat := 0
  instructions : Nat := 0
  stalls : Nat := 0
  flushes : Nat := 0
  forwards : Nat := 0

/-- `Pipeline::get_forward_a`, as a pure selection (the `forwards` counter
increment, a side effect of the source accessor, is accounted for in
`stage_ex`: the counter bumps exactly when the selection is not `NONE`). -/
def get_forward_a (s : Pipeline) : Forward :=
  if ¬ s.forwarding then Forward.NONE
  else
    let rs1 := s.id_ex.ins.rs1
    if rs1 = 0 then Forward.NONE
    else if s.ex_mem.valid ∧ s.ex_mem.ins.reg_write ∧ s.ex_mem.ins.rd = rs1 then
      Forward.EX_MEM
    else if s.mem_wb.valid ∧ s.mem_wb.ins.reg_write ∧ s.mem_wb.ins.rd = rs1 then
      Forward.MEM_WB
    else Forward.NONE

/-- `Pipeline::get_forward_b`. -/
def get_forward_b (s : Pipeline) : Forward :=
  if ¬ s.forwarding then Forward.NONE
  else
    let rs2 := s.id_ex.ins.rs2
    if rs2 = 0 then Forward.NONE
    else if s.ex_mem.valid ∧ s.ex_mem.ins.reg_write ∧ s.ex_mem.ins.rd = rs2 then
      Forward.EX_MEM
    else if s.mem_wb.valid ∧ s.mem_wb.ins.reg_write ∧ s.mem_wb.ins.rd = rs2 then
      Forward.MEM_WB
    else Forward.NONE

/-- `Pipeline::get_forwarded_value`. -/
def get_forwarded_value (s : Pipeline) (fwd : Forward) (reg_val : Nat) : Nat :=
  match fwd with
  | Forward.EX_MEM => s.ex_mem.alu_result
  | Forward.MEM_WB => if s.mem_wb.ins.mem_to_reg then s.mem_wb.mem_data else s.mem_wb.alu_result
  | Forward.NONE => reg_val

/-- `Pipeline::detect_load_use_hazard`. -/
def detect_load_use_hazard (s : Pipeline) : Bool :=
  if ¬ s.hazard_detection then false
  else if s.id_ex.valid ∧ s.id_ex.ins.mem_read then
    let next_ins := decode s.if_id.instruction s.if_id.pc
    if s.id_ex.ins.rd ≠ 0 then
      s.id_ex.ins.rd = next_ins.rs1 ∨ s.id_ex.ins.rd = next_ins.rs2
    else false
  else false

/-- `Pipeline::detect_control_hazard`. -/
def detect_control_hazard (s : Pipeline) : Bool := s.ex_mem.branch_taken

/-- `Pipeline::stage_if`. -/
def stage_if (s : Pipeline) : Pipeline :=
  if s.stalled then s
  else
    { s with
      if_id := { instruction := read_word s.mem s.pc, pc := s.pc,
                 next_pc := wrap (s.pc + 4), valid := true }
      pc := s.next_pc
      next_pc := wrap (s.next_pc + 4) }

/-- `Pipeline::stage_id`. -/
def stage_id (s : Pipeline) : Pipeline :=
  if ¬ s.if_id.valid then { s with id_ex := ID_EX.flush }
  else
    let ins := decode s.if_id.instruction s.if_id.pc
    { s with
      id_ex := { ins := ins, rs1_val := regs_read s.regs ins.rs1,
                 rs2_val := regs_read s.regs ins.rs2,
                 pc := s.if_id.pc, next_pc := s.if_id.next_pc, valid := true } }

/-- The operand values the EX stage uses after forwarding selection. -/
def ex_operands (s : Pipeline) : Nat × Nat :=
  (get_forwarded_value s (get_forward_a s) s.id_ex.rs1_val,
   get_forwarded_value s (get_forward_b s) s.id_ex.rs2_val)

/-- The branch decision of the EX stage: `(branch_taken, branch_target)`,
computed exactly as `Pipeline::stage_ex` does from the forwarded operands. -/
def ex_branch (s : Pipeline) : Bool × Nat :=
  let ins := s.id_ex.ins
  let vals := ex_operands s
  if ins.jump then
    if ins.type = InsType.JAL then (true, toWord ((s.id_ex.pc : Int) + ins.imm))
    else if ins.type = InsType.JALR then
      (true, toWord ((vals.1 : Int) + ins.imm) &&& 0xFFFFFFFE)
    else (false, 0)
  else if ins.branch then
    if ALU.branch_taken ins.type vals.1 vals.2 then
      (true, toWord ((s.id_ex.pc : Int) + ins.imm))
    else (false, 0)
  else (false, 0)

/-- `Pipeline::stage_ex`. -/
def stage_ex (s : Pipeline) : Pipeline :=
  if ¬ s.id_ex.valid then { s with ex_mem := EX_MEM.flush }
  else
    let ins := s.id_ex.ins
    let fwd_a := get_forward_a s
    let fwd_b := get_forward_b s
    let rs1_val := get_forwarded_value s fwd_a s.id_ex.rs1_val
    let rs2_val := get_forwarded_value s fwd_b s.id_ex.rs2_val
    let alu_a := if ins.type = InsType.AUIPC then s.id_ex.pc else rs1_val
    let alu_b := if ins.alu_src then toWord ins.imm else rs2_val
    let alu_result0 := ALU.execute ins.alu_op alu_a alu_b
    let alu_result :=
      if ins.jump ∧ (ins.type = InsType.JAL ∨ ins.type = InsType.JALR) then
        wrap (s.id_ex.pc + 4)
      else alu_result0
    let tb := ex_branch s
    let forwards2 := s.forwards + (if fwd_a ≠ Forward.NONE then 1 else 0)
                                + (if fwd_b ≠ Forward.NONE then 1 else 0)
    let s2 :=
      { s with
        ex_mem := { ins := ins, alu_result := alu_result, rs2_val := rs2_val,
                    branch_target := tb.2, branch_taken := tb.1, valid := true }
        forwards := forwards2 }
    if tb.1 then
      { s2 with
        next_pc := tb.2
        pc := tb.2
        if_id := IF_ID.flush
        id_ex := ID_EX.flush
        flushes := s2.flushes + 2 }
    else s2

/-- `Pipeline::stage_mem`. -/
def stage_mem (s : Pipeline) : Pipeline :=
  if ¬ s.ex_mem.valid then { s with mem_wb := MEM_WB.flush }
  else
    let ins := s.ex_mem.ins
    let addr := s.ex_mem.alu_result
    let mem_data : Nat :=
      if ins.mem_read then
        match ins.type with
        | InsType.LB => toWord (read_byte_signed s.mem addr)
        | InsType.LH => toWord (read_half_signed s.mem addr)
        | InsType.LW => read_word s.mem addr
        | InsType.LBU => read_byte s.mem addr
        | InsType.LHU => read_half s.mem addr
        | _ => 0
      else 0
    let mem2 : Mem :=
      if ins.mem_write then
        match ins.type with
        | InsType.SB => write_byte s.mem addr (s.ex_mem.rs2_val &&& 0xFF)
        | InsType.SH => write_half s.mem addr (s.ex_mem.rs2_val &&& 0xFFFF)
        | InsType.SW => write_word s.mem addr s.ex_mem.rs2_val
        | _ => s.mem
      else s.mem
    { s with
      mem := mem2
      mem_wb := { ins := ins, alu_result := s.ex_mem.alu_result,
                  mem_data := mem_data, valid := true }
      instructions :=
        if ins.type ≠ InsType.UNKNOWN ∧ ¬ ins.is_nop then s.instructions + 1
        else s.instructions }

/-- `Pipeline::stage_wb`. -/
def stage_wb (s : Pipeline) : Pipeline :=
  if ¬ s.mem_wb.valid then s
  else
    let ins := s.mem_wb.ins
    let regs2 :=
      if ins.reg_write ∧ ins.rd ≠ 0 then
        regs_write s.regs ins.rd
          (if ins.mem_to_reg then s.mem_wb.mem_data else s.mem_wb.alu_result)
      else s.regs
    { s with
      regs := regs2
      halted := if ins.type = InsType.ECALL then true else s.halted }

/-- `Pipeline::cycle`.  A halted pipeline returns immediately with no state
change. -/
def cycle (s : Pipeline) : Pipeline :=
  if s.halted then s
  else
    let hz := detect_load_use_hazard s
    let s0 := { s with stalled := hz }
    let s5 :=
      if hz then
        let s1 := { (stage_ex (stage_mem (stage_wb s0))) with id_ex := ID_EX.flush }
        { s1 with stalls := s1.stalls + 1 }
      else
        stage_if (stage_id (stage_ex (stage_mem (stage_wb s0))))
    { s5 with cycles := s5.cycles + 1 }

/-- `Pipeline::run` bounded by fuel; a halted state is a fixed point. -/
def pipeRun (fuel : Nat) (s : Pipeline) : Pipeline :=
  match fuel with
  | 0 => s
  | n + 1 => pipeRun n (cycle s)

-- =============================================================================
-- Assembler encoding helpers (assembler.cpp).  Field arguments are
-- non-negative ints in the source; immediates are signed, and `x & mask`
-- or `x >> k` on a two's-complement int are `lowBits`/`Int` `>>>`.
-- =============================================================================

def enc_r (op rd f3 rs1 rs2 f7 : Nat) : Nat :=
  wrap ((f7 <<< 25) ||| (rs2 <<< 20) ||| (rs1 <<< 15) ||| (f3 <<< 12) ||| (rd <<< 7) ||| op)

def enc_i (op rd f3 rs1 : Nat) (imm : Int) : Nat :=
  wrap ((lowBits imm 12 <<< 20) ||| (rs1 <<< 15) ||| (f3 <<< 12) ||| (rd <<< 7) ||| op)

def enc_s (op f3 rs1 rs2 : Nat) (imm : Int) : Nat :=
  let hi := lowBits (imm >>> (5 : Nat)) 7
  let lo := lowBits imm 5
  wrap ((hi <<< 25) ||| (rs2 <<< 20) ||| (rs1 <<< 15) ||| (f3 <<< 12) ||| (lo <<< 7) ||| op)

def enc_b (op f3 rs1 rs2 : Nat) (imm : Int) : Nat :=
  let b12 := lowBits (imm >>> (12 : Nat)) 1
  let b11 := lowBits (imm >>> (11 : Nat)) 1
  let b10_5 := lowBits (imm >>> (5 : Nat)) 6
  let b4_1 := lowBits (imm >>> (1 : Nat)) 4
  wrap ((b12 <<< 31) ||| (b10_5 <<< 25) ||| (rs2 <<< 20) ||| (rs1 <<< 15) |||
        (f3 <<< 12) ||| (b4_1 <<< 8) ||| (b11 <<< 7) ||| op)

def enc_u (op rd : Nat) (imm : Int) : Nat :=
  wrap ((toWord imm &&& 0xFFFFF000) ||| (rd <<< 7) ||| op)

def enc_j (op rd : Nat) (imm : Int) : Nat :=
  let b20 := lowBits (imm >>> (20 : Nat)) 1
  let b19_12 := lowBits (imm >>> (12 : Nat)) 8
  let b11 := lowBits (imm >>> (11 : Nat)) 1
  let b10_1 := lowBits (imm >>> (1 : Nat)) 10
  wrap ((b20 <<< 31) ||| (b10_1 <<< 21) ||| (b11 <<< 20) ||| (b19_12 <<< 12) |||
        (rd <<< 7) ||| op)

-- =============================================================================
-- Assembler string helpers (assembler.cpp).  `std::stoi`/`std::stoul` skip
-- leading whitespace, accept an optional sign (and `0x` prefix in base 16),
-- require at least one digit, ignore trailing characters, and fail when no
-- digit is present; overflow exceptions are not modelled.
-- =============================================================================

def isSpaceChar (c : Char) : Bool := c = ' ' || c = '\t' || c = '\r' || c = '\n'

/-- `Assembler::trim`. -/
def trim (s : String) : String :=
  String.mk (((s.data.dropWhile isSpaceChar).reverse.dropWhile isSpaceChar).reverse)

/-- `Assembler::to_lower` (ASCII). -/
def to_lower (s : String) : String := String.mk (s.data.map Char.toLower)

/-- Split a character list at every delimiter, keeping empty segments
(the segment structure `std::getline` in a loop produces, except that
`getline` omits one trailing empty segment — callers account for that). -/
def splitChars (p : Char → Bool) (cs : List Char) (acc : List Char) :
    List (List Char) :=
  match cs with
  | [] => [acc.reverse]
  | c :: rest =>
    if p c then acc.reverse :: splitChars p rest []
    else splitChars p rest (c :: acc)

/-- `Assembler::split`: split at `delim`, trim the pieces, drop empties. -/
def split (s : String) (delim : Char) : List String :=
  (((splitChars (· = delim) s.data []).map (fun cs => trim (String.mk cs))).filter (· ≠ ""))

def digitVal? (base : Nat) (c : Char) : Option Nat :=
  let v :=
    if '0' ≤ c ∧ c ≤ '9' then some (c.toNat - 48)
    else if 'a' ≤ c ∧ c ≤ 'f' then some (c.toNat - 87)
    else if 'A' ≤ c ∧ c ≤ 'F' then some (c.toNat - 55)
    else none
  match v with
  | some d => if d < base then some d else none
  | none => none

def takeDigits (base : Nat) : List Char → (Nat × Nat)
  | [] => (0, 0)
  | c :: rest =>
    match digitVal? base c with
    | some d =>
        let r := takeDigits base rest
        (d * base ^ r.2 + r.1, r.2 + 1)
    | none => (0, 0)

/-- `std::stoi` on a decimal string, as an option. -/
def stoi? (s : List Char) : Option Int :=
  let cs := s.dropWhile isSpaceChar
  let p : Bool × List Char :=
    match cs with
    | '-' :: t => (true, t)
    | '+' :: t => (false, t)
    | _ => (false, cs)
  let r := takeDigits 10 p.2
  if r.2 = 0 then none
  else some (if p.1 then -(r.1 : Int) else (r.1 : Int))

/-- `std::stoul` with the given base (16 accepts an optional `0x`/`0X`
prefix); a leading minus negates with unsigned wrap-around. -/
def stoul? (base : Nat) (s : List Char) : Option Int :=
  let cs := s.dropWhile isSpaceChar
  let p : Bool × List Char :=
    match cs with
    | '-' :: t => (true, t)
    | '+' :: t => (false, t)
    | _ => (false, cs)
  let body : List Char :=
    if base = 16 then
      match p.2 with
      | '0' :: 'x' :: t => t
      | '0' :: 'X' :: t => t
      | t => t
    else p.2
  let r := takeDigits base body
  if r.2 = 0 then none
  else some (if p.1 then -(r.1 : Int) else (r.1 : Int))

/-- `Assembler::parse_reg`: `-1` when invalid. -/
def parse_reg (s : String) : Int :=
  let r := to_lower (trim s)
  match r.data with
  | [] => -1
  | c :: rest =>
    if c = 'x' then
      match stoi? rest with
      | some n => if 0 ≤ n ∧ n < 32 then n else -1
      | none => -1
    else
      let abi : List (String × Int) :=
        [("zero", 0), ("ra", 1), ("sp", 2), ("gp", 3), ("tp", 4),
         ("t0", 5), ("t1", 6), ("t2", 7), ("s0", 8), ("fp", 8), ("s1", 9),
         ("a0", 10), ("a1", 11), ("a2", 12), ("a3", 13), ("a4", 14), ("a5", 15),
         ("a6", 16), ("a7", 17), ("s2", 18), ("s3", 19), ("s4", 20), ("s5", 21),
         ("s6", 22), ("s7", 23), ("s8", 24), ("s9", 25), ("s10", 26), ("s11", 27),
         ("t3", 28), ("t4", 29), ("t5", 30), ("t6", 31)]
      match abi.lookup r with
      | some n => n
      | none => -1

/-- `Assembler::parse_imm`: the parsed signed word, or `none` on failure.
The `stoul` results are narrowed to a signed 32-bit word as the
`static_cast<SignedWord>` in the source does. -/
def parse_imm (s : String) : Option Int :=
  let t := (trim s).data
  if t = [] then none
  else if t.length > 2 ∧ (t[1]? = some 'x' ∨ t[1]? = some 'X') then
    (stoul? 16 t).map (fun v => toSigned (toWord v))
  else if t.length > 2 ∧ (t[1]? = some 'b' ∨ t[1]? = some 'B') then
    (stoul? 2 (t.drop 2)).map (fun v => toSigned (toWord v))
  else
    stoi? t

/-- `Assembler::parse_mem`: `(ok, offset, reg)`.  The source leaves the two
out-parameters untouched (uninitialised at the call sites) on the failure
paths that never assigned them; the model returns `0` there. -/
def parse_mem (s : String) : Bool × Int × Int :=
  let cs := s.data
  match cs.findIdx? (· = '('), cs.findIdx? (· = ')') with
  | some lp, some rp =>
    let off_str := trim (String.mk (cs.take lp))
    let inner := cs.drop (lp + 1)
    let reg_str := trim (String.mk (if rp ≥ lp + 1 then inner.take (rp - lp - 1) else inner))
    let off? : Option Int :=
      if off_str = "" then some 0
      else parse_imm off_str
    match off? with
    | none => (false, 0, 0)
    | some off =>
      let reg := parse_reg reg_str
      (reg ≥ 0, off, reg)
  | _, _ => (false, 0, 0)

-- =============================================================================
-- Assembler state and passes (assembler.cpp).  The PC→source map is omitted.
-- Symbols are an insertion map keyed by label, mirroring `std::map` lookup.
-- =============================================================================

def mapInsert (m : List (String × Nat)) (k : String) (v : Nat) : List (String × Nat) :=
  match m with
  | [] => [(k, v)]
  | (k0, v0) :: t => if k0 = k then (k, v) :: t else (k0, v0) :: mapInsert t k v

def mapFind? (m : List (String × Nat)) (k : String) : Option Nat :=
  match m with
  | [] => none
  | (k0, v0) :: t => if k0 = k then some v0 else mapFind? t k

structure AsmState where
  labels : List (String × Nat) := []
  errors : List String := []
  text_out : List Nat := []
  data_out : List Nat := []
  text_addr : Nat := TEXT_BASE
  data_addr : Nat := DATA_BASE
  in_data : Bool := false
  line_num : Nat := 0

/-- `Assembler::emit`. -/
def emit (st : AsmState) (w : Nat) : AsmState :=
  { st with text_out := st.text_out ++ [w], text_addr := wrap (st.text_addr + 4) }

/-- `Assembler::error`. -/
def asmError (st : AsmState) (msg : String) : AsmState :=
  { st with errors := st.errors ++ ["Line " ++ toString st.line_num ++ ": " ++ msg] }

/-- Append raw data bytes and advance the data cursor by `n`. -/
def pushData (st : AsmState) (bs : List Nat) (n : Int) : AsmState :=
  { st with data_out := st.data_out ++ bs,
            data_addr := toWord ((st.data_addr : Int) + n) }

/-- The bytes `.asciz`/`.string` emit for the quoted body, honouring the
source's escape handling (a trailing lone backslash is emitted as itself). -/
def ascizBytes : List Char → List Nat
  | [] => []
  | c :: rest =>
    if c = '\\' then
      match rest with
      | [] => [c.toNat % 256]
      | e :: rest2 =>
        let b : Nat :=
          if e = 'n' then 10
          else if e = 't' then 9
          else if e = 'r' then 13
          else if e = '0' then 0
          else if e = '\\' then 92
          else if e = '"' then 34
          else e.toNat % 256
        b :: ascizBytes rest2
    else (c.toNat % 256) :: ascizBytes rest

/-- `Assembler::handle_directive`.  The `.align` text loop advances in NOP
steps until the cursor is aligned; the step count is computed up front. -/
def handle_directive (line : String) (first_pass : Bool) (st : AsmState) : AsmState :=
  let parts := split line ' '
  match parts with
  | [] => st
  | p0 :: rest =>
    let dir := to_lower p0
    if dir = ".text" then { st with in_data := false }
    else if dir = ".data" then { st with in_data := true }
    else if dir = ".globl" ∨ dir = ".global" then st
    else if dir = ".word" then
      rest.foldl (fun st p =>
        match parse_imm p with
        | some val =>
          let bs := if ¬ first_pass ∧ st.in_data then
              [lowBits val 8, lowBits (val >>> (8 : Nat)) 8, lowBits (val >>> (16 : Nat)) 8,
               lowBits (val >>> (24 : Nat)) 8]
            else []
          if st.in_data then pushData st bs 4 else st
        | none => st) st
    else if dir = ".half" then
      rest.foldl (fun st p =>
        match parse_imm p with
        | some val =>
          let bs := if ¬ first_pass ∧ st.in_data then
              [lowBits val 8, lowBits (val >>> (8 : Nat)) 8] else []
          if st.in_data then pushData st bs 2 else st
        | none => st) st
    else if dir = ".byte" then
      rest.foldl (fun st p =>
        match parse_imm p with
        | some val =>
          let bs := if ¬ first_pass ∧ st.in_data then [lowBits val 8] else []
          if st.in_data then pushData st bs 1 else st
        | none => st) st
    else if dir = ".asciz" ∨ dir = ".string" then
      let cs := line.data
      match cs.findIdx? (· = '"'), (cs.reverse.findIdx? (· = '"')).map
          (fun i => cs.length - 1 - i) with
      | some q1, some q2 =>
        if q2 > q1 then
          let body := (cs.drop (q1 + 1)).take (q2 - q1 - 1)
          let bs := ascizBytes body
          let out := if ¬ first_pass ∧ st.in_data then bs ++ [0] else []
          if st.in_data then pushData st out ((bs.length : Int) + 1) else st
        else st
      | _, _ => st
    else if dir = ".space" then
      match rest with
      | sz_str :: _ =>
        (match parse_imm sz_str with
         | some sz =>
           let bs := if ¬ first_pass ∧ st.in_data then List.replicate sz.toNat 0 else []
           if st.in_data then pushData st bs sz else st
         | none => st)
      | [] => st
    else if dir = ".align" then
      match rest with
      | p_str :: _ =>
        (match parse_imm p_str with
         | some p =>
           let align := 1 <<< p.toNat
           if st.in_data then
             let pad := (align - st.data_addr % align) % align
             let bs := if ¬ first_pass then List.replicate pad 0 else []
             pushData st bs (pad : Int)
           else
             let steps := ((List.range align).find?
               (fun k => (st.text_addr + 4 * k) % align = 0)).getD 0
             if ¬ first_pass then
               (List.range steps).foldl (fun st _ => emit st 0x00000013) st
             else { st with text_addr := wrap (st.text_addr + 4 * steps) }
         | none => st)
      | [] => st
    else st

/-- Offset of a label relative to the current text cursor, as the source's
unsigned `Word` subtraction narrowed back to signed. -/
def labelOff (addr text_addr : Nat) : Int :=
  toSigned (toWord ((addr : Int) - (text_addr : Int)))

/-- `Assembler::handle_pseudo`: `(handled, new state)`.  Register operands
flow into the encoders as the source's (possibly `-1`) ints; the encoders
receive their clamped `toNat` image, which agrees with the source for all
valid registers. -/
def handle_pseudo (mnem : String) (ops : List String) (first_pass : Bool)
    (st : AsmState) : Bool × AsmState :=
  let arg : Nat → String := fun i => (ops[i]?).getD ""
  if mnem = "nop" then
    (true, if ¬ first_pass then emit st 0x00000013 else { st with text_addr := wrap (st.text_addr + 4) })
  else if mnem = "mv" ∧ ops.length = 2 then
    let rd := (parse_reg (arg 0)).toNat
    let rs := (parse_reg (arg 1)).toNat
    (true, if ¬ first_pass then emit st (enc_i 0b0010011 rd 0 rs 0)
           else { st with text_addr := wrap (st.text_addr + 4) })
  else if mnem = "not" ∧ ops.length = 2 then
    let rd := (parse_reg (arg 0)).toNat
    let rs := (parse_reg (arg 1)).toNat
    (true, if ¬ first_pass then emit st (enc_i 0b0010011 rd 0b100 rs (-1))
           else { st with text_addr := wrap (st.text_addr + 4) })
  else if mnem = "neg" ∧ ops.length = 2 then
    let rd := (parse_reg (arg 0)).toNat
    let rs := (parse_reg (arg 1)).toNat
    (true, if ¬ first_pass then emit st (enc_r 0b0110011 rd 0 0 rs 0b0100000)
           else { st with text_addr := wrap (st.text_addr + 4) })
  else if mnem = "seqz" ∧ ops.length = 2 then
    let rd := (parse_reg (arg 0)).toNat
    let rs := (parse_reg (arg 1)).toNat
    (true, if ¬ first_pass then emit st (enc_i 0b0010011 rd 0b011 rs 1)
           else { st with text_addr := wrap (st.text_addr + 4) })
  else if mnem = "snez" ∧ ops.length = 2 then
    let rd := (parse_reg (arg 0)).toNat
    let rs := (parse_reg (arg 1)).toNat
    (true, if ¬ first_pass then emit st (enc_r 0b0110011 rd 0b011 0 rs 0)
           else { st with text_addr := wrap (st.text_addr + 4) })
  else if mnem = "sltz" ∧ ops.length = 2 then
    let rd := (parse_reg (arg 0)).toNat
    let rs := (parse_reg (arg 1)).toNat
    (true, if ¬ first_pass then emit st (enc_r 0b0110011 rd 0b010 rs 0 0)
           else { st with text_addr := wrap (st.text_addr + 4) })
  else if mnem = "sgtz" ∧ ops.length = 2 then
    let rd := (parse_reg (arg 0)).toNat
    let rs := (parse_reg (arg 1)).toNat
    (true, if ¬ first_pass then emit st (enc_r 0b0110011 rd 0b010 0 rs 0)
           else { st with text_addr := wrap (st.text_addr + 4) })
  else if mnem = "li" ∧ ops.length = 2 then
    let rd := (parse_reg (arg 0)).toNat
    match parse_imm (arg 1) with
    | none => (true, asmError st "Invalid immediate")
    | some imm =>
      if -2048 ≤ imm ∧ imm < 2048 then
        (true, if ¬ first_pass then emit st (enc_i 0b0010011 rd 0 0 imm)
               else { st with text_addr := wrap (st.text_addr + 4) })
      else
        let upper := lowBits ((imm + 0x800) >>> (12 : Nat)) 20
        let lower := toSigned (toWord (imm - ((upper <<< 12 : Nat) : Int)))
        if ¬ first_pass then
          let st1 := emit st (enc_u 0b0110111 rd (toSigned (wrap (upper <<< 12))))
          (true, if lower ≠ 0 then emit st1 (enc_i 0b0010011 rd 0 rd lower) else st1)
        else
          let st1 := { st with text_addr := wrap (st.text_addr + 4) }
          (true, if lower ≠ 0 then { st1 with text_addr := wrap (st1.text_addr + 4) } else st1)
  else if mnem = "la" ∧ ops.length = 2 then
    let rd := (parse_reg (arg 0)).toNat
    let label := trim (arg 1)
    if ¬ first_pass then
      match mapFind? st.labels label with
      | none => (true, asmError st ("Unknown label: " ++ label))
      | some addr =>
        let off := labelOff addr st.text_addr
        let upper := lowBits ((off + 0x800) >>> (12 : Nat)) 20
        let lower := toSigned (toWord (off - ((upper <<< 12 : Nat) : Int)))
        let st1 := emit st (enc_u 0b0010111 rd (toSigned (wrap (upper <<< 12))))
        (true, emit st1 (enc_i 0b0010011 rd 0 rd lower))
    else (true, { st with text_addr := wrap (st.text_addr + 8) })
  else if mnem = "j" ∧ ops.length = 1 then
    if ¬ first_pass then
      match parse_imm (arg 0) with
      | some off => (true, emit st (enc_j 0b1101111 0 off))
      | none =>
        match mapFind? st.labels (arg 0) with
        | some addr => (true, emit st (enc_j 0b1101111 0 (labelOff addr st.text_addr)))
        | none => (true, asmError st ("Unknown label: " ++ arg 0))
    else (true, { st with text_addr := wrap (st.text_addr + 4) })
  else if mnem = "jr" ∧ ops.length = 1 then
    let rs := (parse_reg (arg 0)).toNat
    (true, if ¬ first_pass then emit st (enc_i 0b1100111 0 0 rs 0)
           else { st with text_addr := wrap (st.text_addr + 4) })
  else if mnem = "ret" then
    (true, if ¬ first_pass then emit st (enc_i 0b1100111 0 0 1 0)
           else { st with text_addr := wrap (st.text_addr + 4) })
  else if mnem = "call" ∧ ops.length = 1 then
    if ¬ first_pass then
      match mapFind? st.labels (arg 0) with
      | some addr => (true, emit st (enc_j 0b1101111 1 (labelOff addr st.text_addr)))
      | none => (true, asmError st ("Unknown label: " ++ arg 0))
    else (true, { st with text_addr := wrap (st.text_addr + 4) })
  else if mnem = "tail" ∧ ops.length = 1 then
    if ¬ first_pass then
      match mapFind? st.labels (arg 0) with
      | some addr => (true, emit st (enc_j 0b1101111 0 (labelOff addr st.text_addr)))
      | none => (true, asmError st ("Unknown label: " ++ arg 0))
    else (true, { st with text_addr := wrap (st.text_addr + 4) })
  else if mnem = "beqz" ∧ ops.length = 2 then
    let rs := (parse_reg (arg 0)).toNat
    if ¬ first_pass then
      match parse_imm (arg 1) with
      | some off => (true, emit st (enc_b 0b1100011 0b000 rs 0 off))
      | none =>
        match mapFind? st.labels (arg 1) with
        | some addr => (true, emit st (enc_b 0b1100011 0b000 rs 0 (labelOff addr st.text_addr)))
        | none => (true, st)
    else (true, { st with text_addr := wrap (st.text_addr + 4) })
  else if mnem = "bnez" ∧ ops.length = 2 then
    let rs := (parse_reg (arg 0)).toNat
    if ¬ first_pass then
      match mapFind? st.labels (arg 1) with
      | some addr => (true, emit st (enc_b 0b1100011 0b001 rs 0 (labelOff addr st.text_addr)))
      | none => (true, st)
    else (true, { st with text_addr := wrap (st.text_addr + 4) })
  else if mnem = "blez" ∧ ops.length = 2 then
    let rs := (parse_reg (arg 0)).toNat
    if ¬ first_pass then
      match mapFind? st.labels (arg 1) with
      | some addr => (true, emit st (enc_b 0b1100011 0b101 0 rs (labelOff addr st.text_addr)))
      | none => (true, st)
    else (true, { st with text_addr := wrap (st.text_addr + 4) })
  else if mnem = "bgez" ∧ ops.length = 2 then
    let rs := (parse_reg (arg 0)).toNat
    if ¬ first_pass then
      match mapFind? st.labels (arg 1) with
      | some addr => (true, emit st (enc_b 0b1100011 0b101 rs 0 (labelOff addr st.text_addr)))
      | none => (true, st)
    else (true, { st with text_addr := wrap (st.text_addr + 4) })
  else if mnem = "bltz" ∧ ops.length = 2 then
    let rs := (parse_reg (arg 0)).toNat
    if ¬ first_pass then
      match mapFind? st.labels (arg 1) with
      | some addr => (true, emit st (enc_b 0b1100011 0b100 rs 0 (labelOff addr st.text_addr)))
      | none => (true, st)
    else (true, { st with text_addr := wrap (st.text_addr + 4) })
  else if mnem = "bgtz" ∧ ops.length = 2 then
    let rs := (parse_reg (arg 0)).toNat
    if ¬ first_pass then
      match mapFind? st.labels (arg 1) with
      | some addr => (true, emit st (enc_b 0b1100011 0b100 0 rs (labelOff addr st.text_addr)))
      | none => (true, st)
    else (true, { st with text_addr := wrap (st.text_addr + 4) })
  else if mnem = "bgt" ∧ ops.length = 3 then
    let rs := (parse_reg (arg 0)).toNat
    let rt := (parse_reg (arg 1)).toNat
    if ¬ first_pass then
      match mapFind? st.labels (arg 2) with
      | some addr => (true, emit st (enc_b 0b1100011 0b100 rt rs (labelOff addr st.text_addr)))
      | none => (true, st)
    else (true, { st with text_addr := wrap (st.text_addr + 4) })
  else if mnem = "ble" ∧ ops.length = 3 then
    let rs := (parse_reg (arg 0)).toNat
    let rt := (parse_reg (arg 1)).toNat
    if ¬ first_pass then
      match mapFind? st.labels (arg 2) with
      | some addr => (true, emit st (enc_b 0b1100011 0b101 rt rs (labelOff addr st.text_addr)))
      | none => (true, st)
    else (true, { st with text_addr := wrap (st.text_addr + 4) })
  else if mnem = "bgtu" ∧ ops.length = 3 then
    let rs := (parse_reg (arg 0)).toNat
    let rt := (parse_reg (arg 1)).toNat
    if ¬ first_pass then
      match mapFind? st.labels (arg 2) with
      | some addr => (true, emit st (enc_b 0b1100011 0b110 rt rs (labelOff addr st.text_addr)))
      | none => (true, st)
    else (true, { st with text_addr := wrap (st.text_addr + 4) })
  else if mnem = "bleu" ∧ ops.length = 3 then
    let rs := (parse_reg (arg 0)).toNat
    let rt := (parse_reg (arg 1)).toNat
    if ¬ first_pass then
      match mapFind? st.labels (arg 2) with
      | some addr => (true, emit st (enc_b 0b1100011 0b111 rt rs (labelOff addr st.text_addr)))
      | none => (true, st)
    else (true, { st with text_addr := wrap (st.text_addr + 4) })
  else (false, st)

/-- `Assembler::handle_instruction`.  Several branches discard the success
flag of `parse_imm`/`parse_mem`, leaving the out-parameter uninitialised on
failure; the model uses the same defaults exposed by `parse_imm`/`parse_mem`
(`0` where the source never assigned). -/
def handle_instruction (mnem : String) (ops : List String) (first_pass : Bool)
    (st : AsmState) : AsmState :=
  let arg : Nat → String := fun i => (ops[i]?).getD ""
  let bump : AsmState → AsmState := fun st => { st with text_addr := wrap (st.text_addr + 4) }
  let r_ops : List (String × Nat × Nat) :=
    [("add", 0b000, 0b0000000), ("sub", 0b000, 0b0100000),
     ("sll", 0b001, 0b0000000), ("slt", 0b010, 0b0000000),
     ("sltu", 0b011, 0b0000000), ("xor", 0b100, 0b0000000),
     ("srl", 0b101, 0b0000000), ("sra", 0b101, 0b0100000),
     ("or", 0b110, 0b0000000), ("and", 0b111, 0b0000000),
     ("mul", 0b000, 0b0000001), ("mulh", 0b001, 0b0000001),
     ("mulhsu", 0b010, 0b0000001), ("mulhu", 0b011, 0b0000001),
     ("div", 0b100, 0b0000001), ("divu", 0b101, 0b0000001),
     ("rem", 0b110, 0b0000001), ("remu", 0b111, 0b0000001)]
  let i_arith : List (String × Nat) :=
    [("addi", 0b000), ("slti", 0b010), ("sltiu", 0b011),
     ("xori", 0b100), ("ori", 0b110), ("andi", 0b111)]
  let loads : List (String × Nat) :=
    [("lb", 0b000), ("lh", 0b001), ("lw", 0b010), ("lbu", 0b100), ("lhu", 0b101)]
  let stores : List (String × Nat) := [("sb", 0b000), ("sh", 0b001), ("sw", 0b010)]
  let branches : List (String × Nat) :=
    [("beq", 0b000), ("bne", 0b001), ("blt", 0b100),
     ("bge", 0b101), ("bltu", 0b110), ("bgeu", 0b111)]
  match r_ops.lookup mnem with
  | some f37 =>
    if ops.length = 3 then
      let rd := (parse_reg (arg 0)).toNat
      let rs1 := (parse_reg (arg 1)).toNat
      let rs2 := (parse_reg (arg 2)).toNat
      if ¬ first_pass then emit st (enc_r 0b0110011 rd f37.1 rs1 rs2 f37.2) else bump st
    else asmError st ("Unknown instruction: " ++ mnem)
  | none =>
  match i_arith.lookup mnem with
  | some f3 =>
    if ops.length = 3 then
      let rd := (parse_reg (arg 0)).toNat
      let rs1 := (parse_reg (arg 1)).toNat
      let imm := (parse_imm (arg 2)).getD 0
      if ¬ first_pass then emit st (enc_i 0b0010011 rd f3 rs1 imm) else bump st
    else asmError st ("Unknown instruction: " ++ mnem)
  | none =>
  if (mnem = "slli" ∨ mnem = "srli" ∨ mnem = "srai") ∧ ops.length = 3 then
    let rd := (parse_reg (arg 0)).toNat
    let rs1 := (parse_reg (arg 1)).toNat
    let shamt := (parse_imm (arg 2)).getD 0
    let f3 : Nat := if mnem = "slli" then 0b001 else 0b101
    let f7 : Nat := if mnem = "srai" then 0b0100000 else 0b0000000
    let ins := wrap ((f7 <<< 25) ||| (lowBits shamt 5 <<< 20) ||| (rs1 <<< 15) |||
                     (f3 <<< 12) ||| (rd <<< 7) ||| 0b0010011)
    if ¬ first_pass then emit st ins else bump st
  else
  match loads.lookup mnem with
  | some f3 =>
    if ops.length = 2 then
      let rd := (parse_reg (arg 0)).toNat
      let pm := parse_mem (arg 1)
      if ¬ first_pass then emit st (enc_i 0b0000011 rd f3 pm.2.2.toNat pm.2.1) else bump st
    else asmError st ("Unknown instruction: " ++ mnem)
  | none =>
  match stores.lookup mnem with
  | some f3 =>
    if ops.length = 2 then
      let rs2 := (parse_reg (arg 0)).toNat
      let pm := parse_mem (arg 1)
      if ¬ first_pass then emit st (enc_s 0b0100011 f3 pm.2.2.toNat rs2 pm.2.1) else bump st
    else asmError st ("Unknown instruction: " ++ mnem)
  | none =>
  match branches.lookup mnem with
  | some f3 =>
    if ops.length = 3 then
      let rs1 := (parse_reg (arg 0)).toNat
      let rs2 := (parse_reg (arg 1)).toNat
      if ¬ first_pass then
        match parse_imm (arg 2) with
        | some off => emit st (enc_b 0b1100011 f3 rs1 rs2 off)
        | none =>
          match mapFind? st.labels (arg 2) with
          | some addr => emit st (enc_b 0b1100011 f3 rs1 rs2 (labelOff addr st.text_addr))
          | none => asmError st ("Unknown label: " ++ arg 2)
      else bump st
    else asmError st ("Unknown instruction: " ++ mnem)
  | none =>
  if mnem = "jal" then
    if ops.length = 1 ∨ ops.length = 2 then
      let rd := if ops.length = 1 then 1 else (parse_reg (arg 0)).toNat
      let target := if ops.length = 1 then arg 0 else arg 1
      if ¬ first_pass then
        match parse_imm target with
        | some off => emit st (enc_j 0b1101111 rd off)
        | none =>
          match mapFind? st.labels target with
          | some addr => emit st (enc_j 0b1101111 rd (labelOff addr st.text_addr))
          | none => asmError st ("Unknown label: " ++ target)
      else bump st
    else asmError st "Invalid jal format"
  else if mnem = "jalr" then
    let rro : Nat × Nat × Int :=
      if ops.length = 1 then (1, (parse_reg (arg 0)).toNat, 0)
      else if ops.length = 2 then
        let pm := parse_mem (arg 1)
        ((parse_reg (arg 0)).toNat, pm.2.2.toNat, pm.2.1)
      else if ops.length = 3 then
        ((parse_reg (arg 0)).toNat, (parse_reg (arg 1)).toNat, (parse_imm (arg 2)).getD 0)
      else (1, 0, 0)
    if ¬ first_pass then emit st (enc_i 0b1100111 rro.1 0 rro.2.1 rro.2.2) else bump st
  else if mnem = "lui" ∧ ops.length = 2 then
    let rd := (parse_reg (arg 0)).toNat
    let imm := (parse_imm (arg 1)).getD 0
    if ¬ first_pass then emit st (enc_u 0b0110111 rd (toSigned (toWord (imm * 4096)))) else bump st
  else if mnem = "auipc" ∧ ops.length = 2 then
    let rd := (parse_reg (arg 0)).toNat
    let imm := (parse_imm (arg 1)).getD 0
    if ¬ first_pass then emit st (enc_u 0b0010111 rd (toSigned (toWord (imm * 4096)))) else bump st
  else if mnem = "ecall" then
    if ¬ first_pass then emit st 0x00000073 else bump st
  else if mnem = "ebreak" then
    if ¬ first_pass then emit st 0x00100073 else bump st
  else asmError st ("Unknown instruction: " ++ mnem)

/-- `Assembler::process_line`. -/
def process_line (orig : String) (first_pass : Bool) (st : AsmState) : AsmState :=
  let line0 := trim orig
  let line1 :=
    match line0.data.findIdx? (· = '#') with
    | some h => trim (String.mk (line0.data.take h))
    | none => line0
  if line1 = "" then st
  else
    let p : String × AsmState :=
      match line1.data.findIdx? (· = ':') with
      | some colon =>
        let label := trim (String.mk (line1.data.take colon))
        let addr := if st.in_data then st.data_addr else st.text_addr
        let st2 := if first_pass then { st with labels := mapInsert st.labels label addr }
          else st
        (trim (String.mk (line1.data.drop (colon + 1))), st2)
      | none => (line1, st)
    let line := p.1
    let st := p.2
    if line = "" then st
    else if line.data.head? = some '.' then handle_directive line first_pass st
    else if st.in_data then st
    else
      let q : String × String :=
        match line.data.findIdx? (fun c => c = ' ' ∨ c = '\t') with
        | some sp => (to_lower (trim (String.mk (line.data.take sp))),
                      trim (String.mk (line.data.drop sp)))
        | none => (to_lower line, "")
      let ops := split q.2 ','
      let hp := handle_pseudo q.1 ops first_pass st
      if hp.1 then hp.2 else handle_instruction q.1 ops first_pass st

/-- The line list `Assembler::assemble` iterates over (`std::getline` on
newlines, dropping the empty piece a trailing newline would create). -/
def splitLines (source : String) : List String :=
  let ls := (splitChars (· = '\n') source.data []).map String.mk
  match ls.getLast? with
  | some "" => ls.dropLast
  | _ => ls

/-- One full pass over the lines. -/
def runPass (lines : List String) (first_pass : Bool) (st : AsmState) : AsmState :=
  (lines.foldl (fun st l =>
    process_line l first_pass { st with line_num := st.line_num + 1 }) st)

structure AsmResult where
  success : Bool
  text : List Nat
  data : List Nat
  text_addr : Nat
  data_addr : Nat
  symbols : List (String × Nat)
  errors : List String

/-- `Assembler::assemble`: two passes over the source. -/
def assemble (source : String) : AsmResult :=
  let lines := splitLines source
  let st1 := runPass lines true {}
  let st2 := runPass lines false
    { labels := st1.labels, errors := st1.errors,
      text_out := st1.text_out, data_out := st1.data_out,
      text_addr := TEXT_BASE, data_addr := DATA_BASE,
      in_data := false, line_num := 0 }
  { success := st2.errors = []
    text := st2.text_out
    data := st2.data_out
    text_addr := TEXT_BASE
    data_addr := DATA_BASE
    symbols := st2.labels
    errors := st2.errors }

-- =============================================================================
-- Concrete programs from the specification's test scenarios.  Each ends in
-- `ecall`, the halt protocol, so that "after completion" is well defined.
-- =============================================================================

/-- `addi x1,x0,0x100; sw x0,0(x1); lw x2,0(x1); addi x3,x2,1; ecall`
(the load-use hazard scenario), as encoded instruction words. -/
def prog_loaduse : List Nat :=
  [ enc_i 0b0010011 1 0 0 0x100
  , enc_s 0b0100011 0b010 1 0 0
  , enc_i 0b0000011 2 0b010 1 0
  , enc_i 0b0010011 3 0 2 1
  , 0x00000073 ]

/-- `addi x1,x0,1; addi x2,x0,2; beq x1,x1,skip; addi x2,x0,99;
skip: addi x3,x2,0; ecall` (the taken-branch scenario; `skip` is at
address 16, so the B-immediate of the `beq` at address 8 is 8). -/
def prog_branch : List Nat :=
  [ enc_i 0b0010011 1 0 0 1
  , enc_i 0b0010011 2 0 0 2
  , enc_b 0b1100011 0b000 1 1 8
  , enc_i 0b0010011 2 0 0 99
  , enc_i 0b0010011 3 0 2 0
  , 0x00000073 ]

/-- A fresh pipeline (hazard detection and forwarding at their default
`true`) over a memory holding `prog` at the text base and zeroed registers. -/
def initPipeline (prog : List Nat) : Pipeline :=
  { mem := write_block Mem.empty TEXT_BASE prog, regs := Regs.zero }

/-- A fresh single-cycle CPU over the same initial memory and registers. -/
def initCPU (prog : List Nat) : CPUState :=
  { mem := write_block Mem.empty TEXT_BASE prog, regs := Regs.zero }

-- =============================================================================
-- Arithmetic support lemmas (word/bit-field reasoning)
-- =============================================================================

theorem two_pow_mul_lor_eq_add (k a b : Nat) (ha : (2:Nat)^k ∣ a) (hb : b < 2^k) :
    a ||| b = a + b := by
  obtain ⟨x, hx⟩ := ha
  subst hx
  apply Nat.eq_of_testBit_eq
  intro i
  rw [Nat.testBit_lor]
  rcases Nat.lt_or_ge i k with h | h
  · have e1 : (2:Nat)^k = 2^i * 2^(k-i) := by rw [← pow_add]; congr 1; omega
    have e2 : ∀ c : Nat, (2^k * x + c).testBit i = c.testBit i := by
      intro c
      rw [Nat.testBit_to_div_mod, Nat.testBit_to_div_mod, e1, Nat.mul_assoc,
          Nat.mul_add_div (Nat.two_pow_pos i)]
      have e3 : (2:Nat)^(k-i) * x = 2 * (2^(k-i-1) * x) := by
        rw [← Nat.mul_assoc, ← pow_succ']
        congr 2
        omega
      rw [Nat.add_comm, e3, Nat.add_mul_mod_self_left]
    have e4 : (2^k*x).testBit i = false := by
      have e5 := e2 0
      simpa using e5
    rw [e4, e2 b]
    simp
  · have hb2 : b < 2^i := lt_of_lt_of_le hb (Nat.pow_le_pow_right (by norm_num) h)
    have e1 : ∀ c, c < 2^k → (2^k * x + c).testBit i = x.testBit (i - k) := by
      intro c hc
      rw [Nat.testBit_to_div_mod, Nat.testBit_to_div_mod]
      have e2 : (2:Nat)^i = 2^k * 2^(i-k) := by rw [← pow_add]; congr 1; omega
      rw [e2, ← Nat.div_div_eq_div_mul, Nat.mul_add_div (Nat.two_pow_pos k),
          Nat.div_eq_of_lt hc, Nat.add_zero]
    have e4 : (2^k*x).testBit i = x.testBit (i-k) := by
      have e5 := e1 0 (Nat.two_pow_pos k)
      simpa using e5
    rw [Nat.testBit_lt_two_pow hb2, e4, e1 b hb]
    simp

theorem lowBits_lt (x : Int) (w : Nat) : lowBits x w < 2 ^ w := by
  have h2 : (lowBits x w : Int) < ((2:Int)^w) := by
    unfold lowBits
    rw [Int.toNat_of_nonneg (Int.emod_nonneg x (by positivity))]
    exact Int.emod_lt_of_pos x (by positivity)
  exact_mod_cast h2

theorem lowBits_coe (x : Int) (w : Nat) : (lowBits x w : Int) = x % ((2:Int)^w) := by
  unfold lowBits
  exact Int.toNat_of_nonneg (Int.emod_nonneg x (by positivity))

theorem toWord_lt (i : Int) : toWord i < 4294967296 := by
  have h2 : (toWord i : Int) < 4294967296 := by
    unfold toWord
    rw [Int.toNat_of_nonneg (Int.emod_nonneg i (by norm_num))]
    exact Int.emod_lt_of_pos i (by norm_num)
  exact_mod_cast h2

theorem toWord_coe (i : Int) : (toWord i : Int) = i % 4294967296 := by
  unfold toWord
  exact Int.toNat_of_nonneg (Int.emod_nonneg i (by norm_num))

theorem toSigned_toWord (i : Int) (h1 : -2147483648 ≤ i) (h2 : i < 2147483648) :
    toSigned (toWord i) = i := by
  unfold toSigned toWord
  split
  · omega
  · omega

theorem toWord_toSigned (w : Nat) (h : w < 4294967296) : toWord (toSigned w) = w := by
  unfold toSigned toWord
  split
  · omega
  · omega

theorem sign_extend_eq (v w : Nat) (h1 : v < 2 ^ w) (h2 : 0 < w) (h3 : w ≤ 31) :
    sign_extend v w = (v : Int) - (if 2 ^ (w - 1) ≤ v then ((2 : Int) ^ w) else 0) := by
  have hs1 : (1 : Nat) <<< (w - 1) = 2 ^ (w - 1) := by rw [Nat.shiftLeft_eq, Nat.one_mul]
  have hs2 : (1 : Nat) <<< w = 2 ^ w := by rw [Nat.shiftLeft_eq, Nat.one_mul]
  have hq : v / 2 ^ (w - 1) < 2 := by
    apply Nat.div_lt_of_lt_mul
    have hpw : (2 : Nat) ^ w = 2 ^ (w - 1) * 2 := by
      rw [← pow_succ]
      congr 1
      omega
    omega
  have hcond : (v &&& (1 <<< (w - 1)) ≠ 0) ↔ 2 ^ (w - 1) ≤ v := by
    rw [hs1, Nat.and_two_pow, Nat.testBit_to_div_mod]
    have h4 : (0:Nat) < 2 ^ (w-1) := Nat.two_pow_pos _
    have h5 : 1 ≤ v / 2 ^ (w - 1) ↔ 2 ^ (w - 1) ≤ v := Nat.one_le_div_iff h4
    rcases Nat.lt_or_ge v (2 ^ (w - 1)) with hv | hv
    · have hz : v / 2 ^ (w - 1) = 0 := Nat.div_eq_of_lt hv
      simp [hz]
      omega
    · have ho : v / 2 ^ (w - 1) = 1 := by omega
      simp [ho]
      omega
  have hW : W32 = 4294967296 := rfl
  have hle31 : (2:Nat) ^ w ≤ 2 ^ 31 := Nat.pow_le_pow_right (by norm_num) h3
  have hle30 : (2:Nat) ^ (w - 1) ≤ 2 ^ 30 := Nat.pow_le_pow_right (by norm_num) (by omega)
  have hpw : (2 : Nat) ^ w = 2 * 2 ^ (w - 1) := by
    rw [← pow_succ']
    congr 1
    omega
  have hcastw : (((2:Nat) ^ w : Nat) : Int) = (2:Int) ^ w := by push_cast; ring
  unfold sign_extend
  split
  · rename_i hb
    have hge := hcond.mp hb
    rw [if_pos hge, hs2]
    have hw32 : (W32 : Nat) = 2 ^ w * 2 ^ (32 - w) := by
      rw [hW]
      have hsum : w + (32 - w) = 32 := by omega
      rw [← pow_add, hsum]
      norm_num
    have hdvd : (2:Nat) ^ w ∣ (W32 - 2 ^ w) := by
      apply Nat.dvd_sub'
      · rw [hw32]
        exact Dvd.intro _ rfl
      · exact dvd_rfl
    have hlor : v ||| (W32 - 2 ^ w) = (W32 - 2 ^ w) + v := by
      rw [Nat.lor_comm]
      exact two_pow_mul_lor_eq_add w _ v hdvd h1
    have hsum_lt : W32 - 2 ^ w + v < W32 := by omega
    rw [hlor, Nat.mod_eq_of_lt hsum_lt]
    unfold toSigned
    rw [if_neg (by omega)]
    omega
  · rename_i hb
    have hnot : ¬ 2 ^ (w - 1) ≤ v := fun hle => hb (hcond.mpr hle)
    rw [if_neg hnot]
    have hmod : v % W32 = v := Nat.mod_eq_of_lt (by omega)
    rw [hmod]
    unfold toSigned
    rw [if_pos (by omega)]
    omega

theorem sign_extend_lowBits (w : Nat) (h2 : 0 < w) (h3 : w ≤ 31) (imm : Int)
    (hlo : -((2:Int) ^ (w - 1)) ≤ imm) (hhi : imm < (2:Int) ^ (w - 1)) :
    sign_extend (lowBits imm w) w = imm := by
  have hv := lowBits_lt imm w
  rw [sign_extend_eq _ _ hv h2 h3]
  have hc := lowBits_coe imm w
  have hpwI : ((2:Int) ^ w) = 2 * 2 ^ (w - 1) := by
    rw [← pow_succ']
    congr 1
    omega
  have hp0 : (0:Int) < 2 ^ (w - 1) := by positivity
  have hcaste : (((2:Nat) ^ (w - 1) : Nat) : Int) = (2:Int) ^ (w - 1) := by push_cast; ring
  rcases le_or_lt 0 imm with hpos | hneg
  · have himm_lt : imm < (2:Int) ^ w := by rw [hpwI]; linarith
    have hm : imm % ((2:Int) ^ w) = imm := Int.emod_eq_of_lt hpos himm_lt
    rw [hm] at hc
    split
    · rename_i hcnd
      exfalso
      have h6 : (((2:Nat) ^ (w - 1) : Nat) : Int) ≤ (lowBits imm w : Int) := by
        exact_mod_cast hcnd
      rw [hc, hcaste] at h6
      linarith
    · rw [hc]
      ring
  · have h0 : (0:Int) ≤ imm + 2 ^ w := by rw [hpwI]; linarith
    have hlt : imm + 2 ^ w < 2 ^ w := by linarith
    have hm : imm % ((2:Int) ^ w) = imm + 2 ^ w := by
      calc imm % ((2:Int) ^ w) = (imm + 2 ^ w) % ((2:Int) ^ w) := (@Int.add_emod_self imm _).symm
        _ = imm + 2 ^ w := Int.emod_eq_of_lt h0 hlt
    rw [hm] at hc
    split
    · rw [hc]
      ring
    · rename_i hcnd
      exfalso
      have h6 : (lowBits imm w : Int) < (((2:Nat) ^ (w - 1) : Nat) : Int) := by
        exact_mod_cast Nat.lt_of_not_le hcnd
      rw [hc, hcaste, hpwI] at h6
      linarith

theorem bits_eq (v hi lo : Nat) : bits v hi lo = v / 2 ^ lo % 2 ^ (hi - lo + 1) := by
  unfold bits
  rw [Nat.shiftRight_eq_div_pow, Nat.shiftLeft_eq, Nat.one_mul,
      Nat.and_pow_two_sub_one_eq_mod]

theorem and_shift_mask (x m k : Nat) : x &&& (m <<< k) = ((x >>> k) &&& m) <<< k := by
  apply Nat.eq_of_testBit_eq
  intro i
  rw [Nat.testBit_land, Nat.testBit_shiftLeft, Nat.testBit_shiftLeft]
  rcases Nat.lt_or_ge i k with h | h
  · have hd : ¬ (i ≥ k) := by omega
    simp [hd]
  · have hd : i ≥ k := h
    have he : k + (i - k) = i := by omega
    simp [hd, Nat.testBit_land, Nat.testBit_shiftRight, he]

-- =============================================================================
-- Encoder normal forms: each encoder is a sum of disjoint shifted fields.
-- =============================================================================

theorem enc_i_fields (op rd f3 rs1 : Nat) (imm : Int) (hop : op < 128) (hrd : rd < 32)
    (hf3 : f3 < 8) (hrs1 : rs1 < 32) :
    enc_i op rd f3 rs1 imm =
      lowBits imm 12 * 2 ^ 20 + rs1 * 2 ^ 15 + f3 * 2 ^ 12 + rd * 2 ^ 7 + op := by
  have hA := lowBits_lt imm 12
  unfold enc_i wrap
  simp only [Nat.shiftLeft_eq]
  rw [two_pow_mul_lor_eq_add 20 _ _ (dvd_mul_left _ _) (by omega)]
  rw [two_pow_mul_lor_eq_add 15 _ _
    (dvd_add ((pow_dvd_pow 2 (by norm_num)).mul_left _) (dvd_mul_left _ _)) (by omega)]
  rw [two_pow_mul_lor_eq_add 12 _ _
    (dvd_add (dvd_add ((pow_dvd_pow 2 (by norm_num)).mul_left _)
      ((pow_dvd_pow 2 (by norm_num)).mul_left _)) (dvd_mul_left _ _)) (by omega)]
  rw [two_pow_mul_lor_eq_add 7 _ _
    (dvd_add (dvd_add (dvd_add ((pow_dvd_pow 2 (by norm_num)).mul_left _)
      ((pow_dvd_pow 2 (by norm_num)).mul_left _)) ((pow_dvd_pow 2 (by norm_num)).mul_left _))
      (dvd_mul_left _ _)) hop]
  apply Nat.mod_eq_of_lt
  show _ < 4294967296
  norm_num at hA ⊢
  omega

theorem enc_s_fields (op f3 rs1 rs2 : Nat) (imm : Int) (hop : op < 128)
    (hf3 : f3 < 8) (hrs1 : rs1 < 32) (hrs2 : rs2 < 32) :
    enc_s op f3 rs1 rs2 imm =
      lowBits (imm >>> (5 : Nat)) 7 * 2 ^ 25 + rs2 * 2 ^ 20 + rs1 * 2 ^ 15 + f3 * 2 ^ 12 +
        lowBits imm 5 * 2 ^ 7 + op := by
  have hH := lowBits_lt (imm >>> (5 : Nat)) 7
  have hL := lowBits_lt imm 5
  unfold enc_s wrap
  simp only [Nat.shiftLeft_eq]
  rw [two_pow_mul_lor_eq_add 25 _ _ (dvd_mul_left _ _) (by omega)]
  rw [two_pow_mul_lor_eq_add 20 _ _
    (dvd_add ((pow_dvd_pow 2 (by norm_num)).mul_left _) (dvd_mul_left _ _)) (by omega)]
  rw [two_pow_mul_lor_eq_add 15 _ _
    (dvd_add (dvd_add ((pow_dvd_pow 2 (by norm_num)).mul_left _)
      ((pow_dvd_pow 2 (by norm_num)).mul_left _)) (dvd_mul_left _ _)) (by omega)]
  rw [two_pow_mul_lor_eq_add 12 _ _
    (dvd_add (dvd_add (dvd_add ((pow_dvd_pow 2 (by norm_num)).mul_left _)
      ((pow_dvd_pow 2 (by norm_num)).mul_left _)) ((pow_dvd_pow 2 (by norm_num)).mul_left _))
      (dvd_mul_left _ _)) (by omega)]
  rw [two_pow_mul_lor_eq_add 7 _ _
    (dvd_add (dvd_add (dvd_add (dvd_add ((pow_dvd_pow 2 (by norm_num)).mul_left _)
      ((pow_dvd_pow 2 (by norm_num)).mul_left _)) ((pow_dvd_pow 2 (by norm_num)).mul_left _))
      ((pow_dvd_pow 2 (by norm_num)).mul_left _)) (dvd_mul_left _ _)) hop]
  apply Nat.mod_eq_of_lt
  show _ < 4294967296
  norm_num at hH hL ⊢
  omega

theorem enc_b_fields (op f3 rs1 rs2 : Nat) (imm : Int) (hop : op < 128)
    (hf3 : f3 < 8) (hrs1 : rs1 < 32) (hrs2 : rs2 < 32) :
    enc_b op f3 rs1 rs2 imm =
      lowBits (imm >>> (12 : Nat)) 1 * 2 ^ 31 + lowBits (imm >>> (5 : Nat)) 6 * 2 ^ 25 + rs2 * 2 ^ 20 +
        rs1 * 2 ^ 15 + f3 * 2 ^ 12 + lowBits (imm >>> (1 : Nat)) 4 * 2 ^ 8 +
        lowBits (imm >>> (11 : Nat)) 1 * 2 ^ 7 + op := by
  have h12 := lowBits_lt (imm >>> (12 : Nat)) 1
  have h10 := lowBits_lt (imm >>> (5 : Nat)) 6
  have h4 := lowBits_lt (imm >>> (1 : Nat)) 4
  have h11 := lowBits_lt (imm >>> (11 : Nat)) 1
  unfold enc_b wrap
  simp only [Nat.shiftLeft_eq]
  rw [two_pow_mul_lor_eq_add 31 _ _ (dvd_mul_left _ _) (by omega)]
  rw [two_pow_mul_lor_eq_add 25 _ _
    (dvd_add ((pow_dvd_pow 2 (by norm_num)).mul_left _) (dvd_mul_left _ _)) (by omega)]
  rw [two_pow_mul_lor_eq_add 20 _ _
    (dvd_add (dvd_add ((pow_dvd_pow 2 (by norm_num)).mul_left _)
      ((pow_dvd_pow 2 (by norm_num)).mul_left _)) (dvd_mul_left _ _)) (by omega)]
  rw [two_pow_mul_lor_eq_add 15 _ _
    (dvd_add (dvd_add (dvd_add ((pow_dvd_pow 2 (by norm_num)).mul_left _)
      ((pow_dvd_pow 2 (by norm_num)).mul_left _)) ((pow_dvd_pow 2 (by norm_num)).mul_left _))
      (dvd_mul_left _ _)) (by omega)]
  rw [two_pow_mul_lor_eq_add 12 _ _
    (dvd_add (dvd_add (dvd_add (dvd_add ((pow_dvd_pow 2 (by norm_num)).mul_left _)
      ((pow_dvd_pow 2 (by norm_num)).mul_left _)) ((pow_dvd_pow 2 (by norm_num)).mul_left _))
      ((pow_dvd_pow 2 (by norm_num)).mul_left _)) (dvd_mul_left _ _)) (by omega)]
  rw [two_pow_mul_lor_eq_add 8 _ _
    (dvd_add (dvd_add (dvd_add (dvd_add (dvd_add ((pow_dvd_pow 2 (by norm_num)).mul_left _)
      ((pow_dvd_pow 2 (by norm_num)).mul_left _)) ((pow_dvd_pow 2 (by norm_num)).mul_left _))
      ((pow_dvd_pow 2 (by norm_num)).mul_left _)) ((pow_dvd_pow 2 (by norm_num)).mul_left _))
      (dvd_mul_left _ _)) (by omega)]
  rw [two_pow_mul_lor_eq_add 7 _ _
    (dvd_add (dvd_add (dvd_add (dvd_add (dvd_add (dvd_add
      ((pow_dvd_pow 2 (by norm_num)).mul_left _)
      ((pow_dvd_pow 2 (by norm_num)).mul_left _)) ((pow_dvd_pow 2 (by norm_num)).mul_left _))
      ((pow_dvd_pow 2 (by norm_num)).mul_left _)) ((pow_dvd_pow 2 (by norm_num)).mul_left _))
      ((pow_dvd_pow 2 (by norm_num)).mul_left _)) (dvd_mul_left _ _)) hop]
  apply Nat.mod_eq_of_lt
  show _ < 4294967296
  norm_num at h12 h10 h4 h11 ⊢
  omega

theorem and_hi20 (x : Nat) : x &&& 0xFFFFF000 = x / 2 ^ 12 % 2 ^ 20 * 2 ^ 12 := by
  have hm : (0xFFFFF000 : Nat) = 0xFFFFF <<< 12 := by decide
  rw [hm, and_shift_mask, Nat.shiftLeft_eq, Nat.shiftRight_eq_div_pow]
  have h5 : (1048575 : Nat) = 2 ^ 20 - 1 := by norm_num
  rw [h5, Nat.and_pow_two_sub_one_eq_mod]

theorem enc_u_fields (op rd : Nat) (imm : Int) (hop : op < 128) (hrd : rd < 32) :
    enc_u op rd imm = (toWord imm / 2 ^ 12 % 2 ^ 20) * 2 ^ 12 + rd * 2 ^ 7 + op := by
  have ha := and_hi20 (toWord imm)
  have hb : toWord imm / 2 ^ 12 % 2 ^ 20 < 2 ^ 20 := Nat.mod_lt _ (by norm_num)
  unfold enc_u wrap
  simp only [Nat.shiftLeft_eq]
  rw [ha]
  rw [two_pow_mul_lor_eq_add 12 _ _ (dvd_mul_left _ _) (by omega)]
  rw [two_pow_mul_lor_eq_add 7 _ _
    (dvd_add ((pow_dvd_pow 2 (by norm_num)).mul_left _) (dvd_mul_left _ _)) hop]
  apply Nat.mod_eq_of_lt
  show _ < 4294967296
  norm_num at hb ⊢
  omega

theorem enc_j_fields (op rd : Nat) (imm : Int) (hop : op < 128) (hrd : rd < 32) :
    enc_j op rd imm =
      lowBits (imm >>> (20 : Nat)) 1 * 2 ^ 31 + lowBits (imm >>> (1 : Nat)) 10 * 2 ^ 21 +
        lowBits (imm >>> (11 : Nat)) 1 * 2 ^ 20 + lowBits (imm >>> (12 : Nat)) 8 * 2 ^ 12 +
        rd * 2 ^ 7 + op := by
  have h20 := lowBits_lt (imm >>> (20 : Nat)) 1
  have h10 := lowBits_lt (imm >>> (1 : Nat)) 10
  have h11 := lowBits_lt (imm >>> (11 : Nat)) 1
  have h19 := lowBits_lt (imm >>> (12 : Nat)) 8
  unfold enc_j wrap
  simp only [Nat.shiftLeft_eq]
  rw [two_pow_mul_lor_eq_add 31 _ _ (dvd_mul_left _ _) (by omega)]
  rw [two_pow_mul_lor_eq_add 21 _ _
    (dvd_add ((pow_dvd_pow 2 (by norm_num)).mul_left _) (dvd_mul_left _ _)) (by omega)]
  rw [two_pow_mul_lor_eq_add 20 _ _
    (dvd_add (dvd_add ((pow_dvd_pow 2 (by norm_num)).mul_left _)
      ((pow_dvd_pow 2 (by norm_num)).mul_left _)) (dvd_mul_left _ _)) (by omega)]
  rw [two_pow_mul_lor_eq_add 12 _ _
    (dvd_add (dvd_add (dvd_add ((pow_dvd_pow 2 (by norm_num)).mul_left _)
      ((pow_dvd_pow 2 (by norm_num)).mul_left _)) ((pow_dvd_pow 2 (by norm_num)).mul_left _))
      (dvd_mul_left _ _)) (by omega)]
  rw [two_pow_mul_lor_eq_add 7 _ _
    (dvd_add (dvd_add (dvd_add (dvd_add ((pow_dvd_pow 2 (by norm_num)).mul_left _)
      ((pow_dvd_pow 2 (by norm_num)).mul_left _)) ((pow_dvd_pow 2 (by norm_num)).mul_left _))
      ((pow_dvd_pow 2 (by norm_num)).mul_left _)) (dvd_mul_left _ _)) hop]
  apply Nat.mod_eq_of_lt
  show _ < 4294967296
  norm_num at h20 h10 h11 h19 ⊢
  omega

-- =============================================================================
-- Immediate round trips, one per format
-- =============================================================================

theorem imm_i_enc_i (op rd f3 rs1 : Nat) (imm : Int) (hop : op < 128) (hrd : rd < 32)
    (hf3 : f3 < 8) (hrs1 : rs1 < 32) (h1 : -2048 ≤ imm) (h2 : imm < 2048) :
    imm_i (enc_i op rd f3 rs1 imm) = imm := by
  have hA := lowBits_lt imm 12
  rw [enc_i_fields op rd f3 rs1 imm hop hrd hf3 hrs1]
  unfold imm_i
  rw [bits_eq]
  have hb : (lowBits imm 12 * 2 ^ 20 + rs1 * 2 ^ 15 + f3 * 2 ^ 12 + rd * 2 ^ 7 + op)
      / 2 ^ 20 % 2 ^ (31 - 20 + 1) = lowBits imm 12 := by
    norm_num at hA ⊢
    omega
  rw [hb]
  exact sign_extend_lowBits 12 (by norm_num) (by norm_num) imm
    (by norm_num; omega) (by norm_num; omega)

theorem imm_s_enc_s (op f3 rs1 rs2 : Nat) (imm : Int) (hop : op < 128)
    (hf3 : f3 < 8) (hrs1 : rs1 < 32) (hrs2 : rs2 < 32)
    (h1 : -2048 ≤ imm) (h2 : imm < 2048) :
    imm_s (enc_s op f3 rs1 rs2 imm) = imm := by
  have hH := lowBits_lt (imm >>> (5 : Nat)) 7
  have hL := lowBits_lt imm 5
  rw [enc_s_fields op f3 rs1 rs2 imm hop hf3 hrs1 hrs2]
  unfold imm_s
  rw [bits_eq, bits_eq]
  have e1 : (lowBits (imm >>> (5 : Nat)) 7 * 2 ^ 25 + rs2 * 2 ^ 20 + rs1 * 2 ^ 15 + f3 * 2 ^ 12 +
      lowBits imm 5 * 2 ^ 7 + op) / 2 ^ 25 % 2 ^ (31 - 25 + 1) = lowBits (imm >>> (5 : Nat)) 7 := by
    norm_num at hH hL ⊢
    omega
  have e2 : (lowBits (imm >>> (5 : Nat)) 7 * 2 ^ 25 + rs2 * 2 ^ 20 + rs1 * 2 ^ 15 + f3 * 2 ^ 12 +
      lowBits imm 5 * 2 ^ 7 + op) / 2 ^ 7 % 2 ^ (11 - 7 + 1) = lowBits imm 5 := by
    norm_num at hH hL ⊢
    omega
  rw [e1, e2, Nat.shiftLeft_eq]
  rw [two_pow_mul_lor_eq_add 5 _ _ (dvd_mul_left _ _) (by norm_num at hL ⊢; omega)]
  have key : lowBits (imm >>> (5 : Nat)) 7 * 2 ^ 5 + lowBits imm 5 = lowBits imm 12 := by
    have c1 : (lowBits (imm >>> (5 : Nat)) 7 : Int) = imm / 32 % 128 := by
      rw [lowBits_coe, Int.shiftRight_eq_div_pow]
      norm_num
    have c2 : (lowBits imm 5 : Int) = imm % 32 := by
      rw [lowBits_coe]
      norm_num
    have c3 : (lowBits imm 12 : Int) = imm % 4096 := by
      rw [lowBits_coe]
      norm_num
    omega
  rw [key]
  exact sign_extend_lowBits 12 (by norm_num) (by norm_num) imm
    (by norm_num; omega) (by norm_num; omega)

theorem imm_b_enc_b (op f3 rs1 rs2 : Nat) (imm : Int) (hop : op < 128)
    (hf3 : f3 < 8) (hrs1 : rs1 < 32) (hrs2 : rs2 < 32)
    (h1 : -4096 ≤ imm) (h2 : imm < 4096) (hev : imm % 2 = 0) :
    imm_b (enc_b op f3 rs1 rs2 imm) = imm := by
  have h12 := lowBits_lt (imm >>> (12 : Nat)) 1
  have h10 := lowBits_lt (imm >>> (5 : Nat)) 6
  have h4 := lowBits_lt (imm >>> (1 : Nat)) 4
  have h11 := lowBits_lt (imm >>> (11 : Nat)) 1
  have key : lowBits (imm >>> (12 : Nat)) 1 * 2 ^ 12 + lowBits (imm >>> (11 : Nat)) 1 * 2 ^ 11 +
      lowBits (imm >>> (5 : Nat)) 6 * 2 ^ 5 + lowBits (imm >>> (1 : Nat)) 4 * 2 ^ 1 = lowBits imm 13 := by
    have c1 : (lowBits (imm >>> (12 : Nat)) 1 : Int) = imm / 4096 % 2 := by
      rw [lowBits_coe, Int.shiftRight_eq_div_pow]
      norm_num
    have c2 : (lowBits (imm >>> (11 : Nat)) 1 : Int) = imm / 2048 % 2 := by
      rw [lowBits_coe, Int.shiftRight_eq_div_pow]
      norm_num
    have c3 : (lowBits (imm >>> (5 : Nat)) 6 : Int) = imm / 32 % 64 := by
      rw [lowBits_coe, Int.shiftRight_eq_div_pow]
      norm_num
    have c4 : (lowBits (imm >>> (1 : Nat)) 4 : Int) = imm / 2 % 16 := by
      rw [lowBits_coe, Int.shiftRight_eq_div_pow]
      norm_num
    have c5 : (lowBits imm 13 : Int) = imm % 8192 := by
      rw [lowBits_coe]
      norm_num
    omega
  rw [enc_b_fields op f3 rs1 rs2 imm hop hf3 hrs1 hrs2]
  unfold imm_b
  rw [bits_eq, bits_eq, bits_eq, bits_eq]
  have e1 : (lowBits (imm >>> (12 : Nat)) 1 * 2 ^ 31 + lowBits (imm >>> (5 : Nat)) 6 * 2 ^ 25 + rs2 * 2 ^ 20 +
      rs1 * 2 ^ 15 + f3 * 2 ^ 12 + lowBits (imm >>> (1 : Nat)) 4 * 2 ^ 8 +
      lowBits (imm >>> (11 : Nat)) 1 * 2 ^ 7 + op) / 2 ^ 31 % 2 ^ (31 - 31 + 1) =
      lowBits (imm >>> (12 : Nat)) 1 := by
    clear key h1 h2 hev
    norm_num at h12 h10 h4 h11 ⊢
    omega
  have e2 : (lowBits (imm >>> (12 : Nat)) 1 * 2 ^ 31 + lowBits (imm >>> (5 : Nat)) 6 * 2 ^ 25 + rs2 * 2 ^ 20 +
      rs1 * 2 ^ 15 + f3 * 2 ^ 12 + lowBits (imm >>> (1 : Nat)) 4 * 2 ^ 8 +
      lowBits (imm >>> (11 : Nat)) 1 * 2 ^ 7 + op) / 2 ^ 7 % 2 ^ (7 - 7 + 1) =
      lowBits (imm >>> (11 : Nat)) 1 := by
    clear key h1 h2 hev
    norm_num at h12 h10 h4 h11 ⊢
    omega
  have e3 : (lowBits (imm >>> (12 : Nat)) 1 * 2 ^ 31 + lowBits (imm >>> (5 : Nat)) 6 * 2 ^ 25 + rs2 * 2 ^ 20 +
      rs1 * 2 ^ 15 + f3 * 2 ^ 12 + lowBits (imm >>> (1 : Nat)) 4 * 2 ^ 8 +
      lowBits (imm >>> (11 : Nat)) 1 * 2 ^ 7 + op) / 2 ^ 25 % 2 ^ (30 - 25 + 1) =
      lowBits (imm >>> (5 : Nat)) 6 := by
    clear key h1 h2 hev
    norm_num at h12 h10 h4 h11 ⊢
    omega
  have e4 : (lowBits (imm >>> (12 : Nat)) 1 * 2 ^ 31 + lowBits (imm >>> (5 : Nat)) 6 * 2 ^ 25 + rs2 * 2 ^ 20 +
      rs1 * 2 ^ 15 + f3 * 2 ^ 12 + lowBits (imm >>> (1 : Nat)) 4 * 2 ^ 8 +
      lowBits (imm >>> (11 : Nat)) 1 * 2 ^ 7 + op) / 2 ^ 8 % 2 ^ (11 - 8 + 1) =
      lowBits (imm >>> (1 : Nat)) 4 := by
    clear key h1 h2 hev
    norm_num at h12 h10 h4 h11 ⊢
    omega
  rw [e1, e2, e3, e4]
  rw [Nat.shiftLeft_eq, Nat.shiftLeft_eq, Nat.shiftLeft_eq, Nat.shiftLeft_eq]
  rw [two_pow_mul_lor_eq_add 12 _ _ (dvd_mul_left _ _) (by norm_num at h11 ⊢; omega)]
  rw [two_pow_mul_lor_eq_add 11 _ _
    (dvd_add ((pow_dvd_pow 2 (by norm_num)).mul_left _) (dvd_mul_left _ _))
    (by norm_num at h10 ⊢; omega)]
  rw [two_pow_mul_lor_eq_add 5 _ _
    (dvd_add (dvd_add ((pow_dvd_pow 2 (by norm_num)).mul_left _)
      ((pow_dvd_pow 2 (by norm_num)).mul_left _)) (dvd_mul_left _ _))
    (by norm_num at h4 ⊢; omega)]
  rw [key]
  exact sign_extend_lowBits 13 (by norm_num) (by norm_num) imm
    (by norm_num; omega) (by norm_num; omega)

theorem imm_u_enc_u (op rd : Nat) (imm : Int) (hop : op < 128) (hrd : rd < 32)
    (h1 : -2147483648 ≤ imm) (h2 : imm < 2147483648) (hm : imm % 4096 = 0) :
    imm_u (enc_u op rd imm) = imm := by
  have htl := toWord_lt imm
  have htc := toWord_coe imm
  have htm : toWord imm % 4096 = 0 := by
    have hd : ((4096 : Int)) ∣ 4294967296 := by norm_num
    have h3 : (imm % 4294967296) % 4096 = imm % 4096 := Int.emod_emod_of_dvd imm hd
    omega
  have hA : toWord imm / 2 ^ 12 % 2 ^ 20 * 2 ^ 12 = toWord imm := by
    norm_num
    omega
  rw [enc_u_fields op rd imm hop hrd, hA]
  unfold imm_u
  rw [and_hi20]
  have hE : (toWord imm + rd * 2 ^ 7 + op) / 2 ^ 12 % 2 ^ 20 * 2 ^ 12 = toWord imm := by
    norm_num
    omega
  rw [hE]
  exact toSigned_toWord imm h1 h2

theorem imm_j_enc_j (op rd : Nat) (imm : Int) (hop : op < 128) (hrd : rd < 32)
    (h1 : -1048576 ≤ imm) (h2 : imm < 1048576) (hev : imm % 2 = 0) :
    imm_j (enc_j op rd imm) = imm := by
  have h20 := lowBits_lt (imm >>> (20 : Nat)) 1
  have h10 := lowBits_lt (imm >>> (1 : Nat)) 10
  have h11 := lowBits_lt (imm >>> (11 : Nat)) 1
  have h19 := lowBits_lt (imm >>> (12 : Nat)) 8
  have key : lowBits (imm >>> (20 : Nat)) 1 * 2 ^ 20 + lowBits (imm >>> (12 : Nat)) 8 * 2 ^ 12 +
      lowBits (imm >>> (11 : Nat)) 1 * 2 ^ 11 + lowBits (imm >>> (1 : Nat)) 10 * 2 ^ 1 =
      lowBits imm 21 := by
    have c1 : (lowBits (imm >>> (20 : Nat)) 1 : Int) = imm / 1048576 % 2 := by
      rw [lowBits_coe, Int.shiftRight_eq_div_pow]
      norm_num
    have c2 : (lowBits (imm >>> (12 : Nat)) 8 : Int) = imm / 4096 % 256 := by
      rw [lowBits_coe, Int.shiftRight_eq_div_pow]
      norm_num
    have c3 : (lowBits (imm >>> (11 : Nat)) 1 : Int) = imm / 2048 % 2 := by
      rw [lowBits_coe, Int.shiftRight_eq_div_pow]
      norm_num
    have c4 : (lowBits (imm >>> (1 : Nat)) 10 : Int) = imm / 2 % 1024 := by
      rw [lowBits_coe, Int.shiftRight_eq_div_pow]
      norm_num
    have c5 : (lowBits imm 21 : Int) = imm % 2097152 := by
      rw [lowBits_coe]
      norm_num
    omega
  rw [enc_j_fields op rd imm hop hrd]
  unfold imm_j
  rw [bits_eq, bits_eq, bits_eq, bits_eq]
  have e1 : (lowBits (imm >>> (20 : Nat)) 1 * 2 ^ 31 + lowBits (imm >>> (1 : Nat)) 10 * 2 ^ 21 +
      lowBits (imm >>> (11 : Nat)) 1 * 2 ^ 20 + lowBits (imm >>> (12 : Nat)) 8 * 2 ^ 12 +
      rd * 2 ^ 7 + op) / 2 ^ 31 % 2 ^ (31 - 31 + 1) = lowBits (imm >>> (20 : Nat)) 1 := by
    clear key h1 h2 hev
    norm_num at h20 h10 h11 h19 ⊢
    omega
  have e2 : (lowBits (imm >>> (20 : Nat)) 1 * 2 ^ 31 + lowBits (imm >>> (1 : Nat)) 10 * 2 ^ 21 +
      lowBits (imm >>> (11 : Nat)) 1 * 2 ^ 20 + lowBits (imm >>> (12 : Nat)) 8 * 2 ^ 12 +
      rd * 2 ^ 7 + op) / 2 ^ 12 % 2 ^ (19 - 12 + 1) = lowBits (imm >>> (12 : Nat)) 8 := by
    clear key h1 h2 hev
    norm_num at h20 h10 h11 h19 ⊢
    omega
  have e3 : (lowBits (imm >>> (20 : Nat)) 1 * 2 ^ 31 + lowBits (imm >>> (1 : Nat)) 10 * 2 ^ 21 +
      lowBits (imm >>> (11 : Nat)) 1 * 2 ^ 20 + lowBits (imm >>> (12 : Nat)) 8 * 2 ^ 12 +
      rd * 2 ^ 7 + op) / 2 ^ 20 % 2 ^ (20 - 20 + 1) = lowBits (imm >>> (11 : Nat)) 1 := by
    clear key h1 h2 hev
    norm_num at h20 h10 h11 h19 ⊢
    omega
  have e4 : (lowBits (imm >>> (20 : Nat)) 1 * 2 ^ 31 + lowBits (imm >>> (1 : Nat)) 10 * 2 ^ 21 +
      lowBits (imm >>> (11 : Nat)) 1 * 2 ^ 20 + lowBits (imm >>> (12 : Nat)) 8 * 2 ^ 12 +
      rd * 2 ^ 7 + op) / 2 ^ 21 % 2 ^ (30 - 21 + 1) = lowBits (imm >>> (1 : Nat)) 10 := by
    clear key h1 h2 hev
    norm_num at h20 h10 h11 h19 ⊢
    omega
  rw [e1, e2, e3, e4]
  rw [Nat.shiftLeft_eq, Nat.shiftLeft_eq, Nat.shiftLeft_eq, Nat.shiftLeft_eq]
  rw [two_pow_mul_lor_eq_add 20 _ _ (dvd_mul_left _ _) (by norm_num at h19 ⊢; omega)]
  rw [two_pow_mul_lor_eq_add 12 _ _
    (dvd_add ((pow_dvd_pow 2 (by norm_num)).mul_left _) (dvd_mul_left _ _))
    (by norm_num at h11 ⊢; omega)]
  rw [two_pow_mul_lor_eq_add 11 _ _
    (dvd_add (dvd_add ((pow_dvd_pow 2 (by norm_num)).mul_left _)
      ((pow_dvd_pow 2 (by norm_num)).mul_left _)) (dvd_mul_left _ _))
    (by norm_num at h10 ⊢; omega)]
  rw [key]
  exact sign_extend_lowBits 21 (by norm_num) (by norm_num) imm
    (by norm_num; omega) (by norm_num; omega)

-- =============================================================================
-- Signed view support for the ALU division operations
-- =============================================================================

theorem toSigned_bounds (a : Nat) (ha : a < 4294967296) :
    -2147483648 ≤ toSigned a ∧ toSigned a < 2147483648 := by
  unfold toSigned
  split
  · omega
  · omega

theorem toSigned_eq_zero (a : Nat) (ha : a < 4294967296) : toSigned a = 0 ↔ a = 0 := by
  unfold toSigned
  split
  · omega
  · omega

theorem toSigned_eq_min (a : Nat) (ha : a < 4294967296) :
    toSigned a = -2147483648 ↔ a = 2147483648 := by
  unfold toSigned
  split
  · omega
  · omega

theorem toSigned_eq_neg_one (a : Nat) (ha : a < 4294967296) :
    toSigned a = -1 ↔ a = 4294967295 := by
  unfold toSigned
  split
  · omega
  · omega

theorem tdiv_range (sa sb : Int) (h1 : -2147483648 ≤ sa) (h2 : sa < 2147483648)
    (h3 : -2147483648 ≤ sb) (h4 : sb < 2147483648) (h5 : sb ≠ 0)
    (h6 : ¬(sa = -2147483648 ∧ sb = -1)) :
    -2147483648 ≤ sa.tdiv sb ∧ sa.tdiv sb < 2147483648 := by
  rcases eq_or_ne sb 1 with hb1 | hne1
  · subst hb1
    rw [Int.tdiv_one]
    omega
  rcases eq_or_ne sb (-1) with hbm | hnem
  · subst hbm
    have e : sa.tdiv (-1) = -(sa.tdiv 1) := Int.tdiv_neg sa 1
    rw [Int.tdiv_one] at e
    rw [e]
    omega
  · have habs : (sa.tdiv sb).natAbs = sa.natAbs / sb.natAbs := Int.natAbs_tdiv sa sb
    have hb2 : 2 ≤ sb.natAbs := by omega
    have hmono : sa.natAbs / sb.natAbs ≤ sa.natAbs / 2 :=
      Nat.div_le_div_left hb2 (by norm_num)
    have hsa : sa.natAbs ≤ 2147483648 := by omega
    have : sa.natAbs / 2 ≤ 1073741824 := by omega
    omega

theorem tmod_range (sa sb : Int) (h1 : -2147483648 ≤ sa) (h2 : sa < 2147483648)
    (h3 : -2147483648 ≤ sb) (h4 : sb < 2147483648) (h5 : sb ≠ 0) :
    -2147483648 ≤ sa.tmod sb ∧ sa.tmod sb < 2147483648 := by
  have key : ∀ x y : Int, 0 < y → -y < x.tmod y ∧ x.tmod y < y := by
    intro x y hy
    have hneg : x.tmod y = -((-x).tmod y) := by
      rw [Int.tmod_def, Int.tmod_def, Int.neg_tdiv]
      ring
    constructor
    · rcases le_or_lt 0 x with hx | hx
      · have h7 := Int.tmod_nonneg y hx
        omega
      · have h7 := Int.tmod_lt_of_pos (-x) hy
        omega
    · rcases le_or_lt 0 x with hx | hx
      · exact Int.tmod_lt_of_pos x hy
      · have h7 := Int.tmod_nonneg y (by omega : (0:Int) ≤ -x)
        omega
  rcases lt_or_gt_of_ne h5 with hneg | hpos
  · have e : sa.tmod sb = sa.tmod (-sb) := (Int.tmod_neg sa sb).symm
    have h8 := key sa (-sb) (by omega)
    omega
  · have h8 := key sa sb hpos
    omega

-- =============================================================================
-- Pipeline stage analysis: shapes of the stage transformers and the state
-- seen by EX after WB and MEM have run within the same cycle
-- =============================================================================

theorem forward_a_not_memwb (t : Pipeline)
    (h : t.mem_wb.valid = true → (t.mem_wb.ins = t.ex_mem.ins ∧ t.ex_mem.valid = true)) :
    get_forward_a t ≠ Forward.MEM_WB := by
  by_cases h1 : t.forwarding = true
  · by_cases h2 : t.id_ex.ins.rs1 = 0
    · simp [get_forward_a, h1, h2]
    · by_cases h3 : t.ex_mem.valid = true ∧ t.ex_mem.ins.reg_write = true ∧
          t.ex_mem.ins.rd = t.id_ex.ins.rs1
      · simp [get_forward_a, h1, h2, h3]
      · have h4 : ¬ (t.mem_wb.valid = true ∧ t.mem_wb.ins.reg_write = true ∧
            t.mem_wb.ins.rd = t.id_ex.ins.rs1) := by
          rintro ⟨hv, hw, hr⟩
          obtain ⟨hins, hexv⟩ := h hv
          rw [hins] at hw hr
          exact h3 ⟨hexv, hw, hr⟩
        simp [get_forward_a, h1, h2, h3, h4]
  · simp [get_forward_a, h1]

theorem forward_b_not_memwb (t : Pipeline)
    (h : t.mem_wb.valid = true → (t.mem_wb.ins = t.ex_mem.ins ∧ t.ex_mem.valid = true)) :
    get_forward_b t ≠ Forward.MEM_WB := by
  by_cases h1 : t.forwarding = true
  · by_cases h2 : t.id_ex.ins.rs2 = 0
    · simp [get_forward_b, h1, h2]
    · by_cases h3 : t.ex_mem.valid = true ∧ t.ex_mem.ins.reg_write = true ∧
          t.ex_mem.ins.rd = t.id_ex.ins.rs2
      · simp [get_forward_b, h1, h2, h3]
      · have h4 : ¬ (t.mem_wb.valid = true ∧ t.mem_wb.ins.reg_write = true ∧
            t.mem_wb.ins.rd = t.id_ex.ins.rs2) := by
          rintro ⟨hv, hw, hr⟩
          obtain ⟨hins, hexv⟩ := h hv
          rw [hins] at hw hr
          exact h3 ⟨hexv, hw, hr⟩
        simp [get_forward_b, h1, h2, h3, h4]
  · simp [get_forward_b, h1]

theorem stage_mem_inv (s : Pipeline) :
    (stage_mem s).mem_wb.valid = true →
      ((stage_mem s).mem_wb.ins = (stage_mem s).ex_mem.ins ∧
       (stage_mem s).ex_mem.valid = true) := by
  unfold stage_mem
  split
  · intro hcontra
    simp [MEM_WB.flush] at hcontra
  · rename_i hv
    intro _
    refine ⟨rfl, ?_⟩
    simpa using hv

theorem stage_wb_shape (s : Pipeline) :
    ∃ r hl, stage_wb s = { s with regs := r, halted := hl } := by
  unfold stage_wb
  split
  · exact ⟨s.regs, s.halted, rfl⟩
  · exact ⟨_, _, rfl⟩

theorem stage_mem_shape (s : Pipeline) :
    ∃ m mw ic, stage_mem s = { s with mem := m, mem_wb := mw, instructions := ic } := by
  unfold stage_mem
  split
  · exact ⟨s.mem, MEM_WB.flush, s.instructions, rfl⟩
  · exact ⟨_, _, _, rfl⟩

theorem stage_id_shape (s : Pipeline) :
    ∃ ie, stage_id s = { s with id_ex := ie } := by
  unfold stage_id
  split
  · exact ⟨ID_EX.flush, rfl⟩
  · exact ⟨_, rfl⟩

theorem stage_ex_taken (s : Pipeline) (t : Nat) (hvalid : s.id_ex.valid = true)
    (ht : ex_branch s = (true, t)) :
    ∃ em fw, stage_ex s =
      { s with ex_mem := em, forwards := fw, next_pc := t, pc := t,
               if_id := IF_ID.flush, id_ex := ID_EX.flush, flushes := s.flushes + 2 } ∧
      em.ins = s.id_ex.ins ∧ em.valid = true := by
  unfold stage_ex
  rw [if_neg (by simp [hvalid]), ht]
  exact ⟨_, _, rfl, rfl, rfl⟩

theorem stage_ex_invalid (s : Pipeline) (h : s.id_ex.valid = false) :
    stage_ex s = { s with ex_mem := EX_MEM.flush } := by
  unfold stage_ex
  rw [if_pos (by simp [h])]

theorem stage_if_go (s : Pipeline) (h : s.stalled = false) :
    stage_if s = { s with
      if_id := { instruction := read_word s.mem s.pc, pc := s.pc,
                 next_pc := wrap (s.pc + 4), valid := true }
      pc := s.next_pc
      next_pc := wrap (s.next_pc + 4) } := by
  unfold stage_if
  rw [if_neg (by simp [h])]

theorem stage_id_invalid (s : Pipeline) (h : s.if_id.valid = false) :
    stage_id s = { s with id_ex := ID_EX.flush } := by
  unfold stage_id
  rw [if_pos (by simp [h])]

theorem detect_of_invalid (s : Pipeline) (h : s.id_ex.valid = false) :
    detect_load_use_hazard s = false := by
  unfold detect_load_use_hazard
  split
  · rfl
  · rw [if_neg (by simp [h])]

theorem stage_mem_no_write (s : Pipeline) (h : s.ex_mem.ins.mem_write = false) :
    (stage_mem s).mem = s.mem := by
  unfold stage_mem
  split
  · rfl
  · simp [h]

theorem stage_wb_set_stalled (s : Pipeline) (b : Bool) :
    stage_wb { s with stalled := b } = { stage_wb s with stalled := b } := by
  unfold stage_wb
  by_cases h : s.mem_wb.valid = true
  · rw [if_neg (by simp [h]), if_neg (by simp [h])]
  · rw [if_pos (by simp_all), if_pos (by simp_all)]

theorem stage_mem_set_stalled (s : Pipeline) (b : Bool) :
    stage_mem { s with stalled := b } = { stage_mem s with stalled := b } := by
  unfold stage_mem
  by_cases h : s.ex_mem.valid = true
  · rw [if_neg (by simp [h]), if_neg (by simp [h])]
  · rw [if_pos (by simp_all), if_pos (by simp_all)]

theorem ex_branch_set_stalled (s : Pipeline) (b : Bool) :
    ex_branch { s with stalled := b } = ex_branch s := rfl

theorem cycle_go (s : Pipeline) (hh : s.halted = false)
    (hz : detect_load_use_hazard s = false) :
    cycle s =
      { stage_if (stage_id (stage_ex (stage_mem (stage_wb { s with stalled := false })))) with
        cycles :=
          (stage_if (stage_id (stage_ex (stage_mem
            (stage_wb { s with stalled := false }))))).cycles + 1 } := by
  unfold cycle
  rw [if_neg (by simp [hh]), hz]
  simp

theorem cycle_after_flush (u : Pipeline) (t : Nat)
    (h1 : u.halted = false)
    (h2 : u.id_ex.valid = false)
    (h3 : u.if_id.valid = true)
    (h4 : u.pc = t)
    (h5 : u.ex_mem.ins.mem_write = false) :
    (cycle u).if_id.valid = true ∧ (cycle u).if_id.pc = t ∧
    (cycle u).if_id.instruction = read_word u.mem t := by
  have hz := detect_of_invalid u h2
  obtain ⟨r, hl, hwb⟩ := stage_wb_shape u
  obtain ⟨m2, mw2, ic2, hmem2⟩ := stage_mem_shape (stage_wb u)
  have hs2 : stage_mem (stage_wb u) =
      { u with regs := r, halted := hl, mem := m2, mem_wb := mw2, instructions := ic2 } := by
    rw [hmem2, hwb]
  have hm2 : m2 = u.mem := by
    have e1 : (stage_mem (stage_wb u)).mem = m2 := by rw [hs2]
    have e2 : (stage_wb u).ex_mem.ins.mem_write = false := by rw [hwb]; exact h5
    have e3 := stage_mem_no_write (stage_wb u) e2
    have e4 : (stage_wb u).mem = u.mem := by rw [hwb]
    rw [e1, e4] at e3
    exact e3
  have hms2 : stage_mem (stage_wb { u with stalled := false }) =
      { u with regs := r, halted := hl, mem := m2, mem_wb := mw2, instructions := ic2,
               stalled := false } := by
    rw [stage_wb_set_stalled, stage_mem_set_stalled, hs2]
  rw [cycle_go u h1 hz, hms2]
  rw [stage_ex_invalid ({ u with regs := r, halted := hl, mem := m2, mem_wb := mw2,
                                 instructions := ic2, stalled := false }) h2]
  obtain ⟨ie, hid⟩ := stage_id_shape
    ({ u with regs := r, halted := hl, mem := m2, mem_wb := mw2, instructions := ic2,
              stalled := false, ex_mem := EX_MEM.flush })
  rw [hid, stage_if_go _ rfl, hm2, h4]
  exact ⟨rfl, rfl, rfl⟩

-- =============================================================================
-- Claim theorems
-- =============================================================================

/-- C1: the spec claims that with hazard detection and forwarding enabled the
pipeline's committed register file and memory after completion equal the
single-cycle executor's.  Refuted: on the load-use program
`addi x1,x0,0x100; sw x0,0(x1); lw x2,0(x1); addi x3,x2,1; ecall`, both
executors halt but the pipeline commits x2 = 0x10000093 (the instruction word
at address 0, because the load's base register x1 is never forwarded) while
the single-cycle executor commits x2 = 0. -/
theorem claim_C1 :
    (initPipeline prog_loaduse).hazard_detection = true ∧
    (initPipeline prog_loaduse).forwarding = true ∧
    (pipeRun 15 (initPipeline prog_loaduse)).halted = true ∧
    (cpuRun 10 (initCPU prog_loaduse)).halted = true ∧
    (pipeRun 15 (initPipeline prog_loaduse)).regs 2 = 0x10000093 ∧
    (cpuRun 10 (initCPU prog_loaduse)).regs 2 = 0 := by
  refine ⟨rfl, rfl, ?_, ?_, ?_, ?_⟩ <;> decide

/-- C2: on the load-use program, with forwarding and hazard detection
enabled, the pipeline halts with x3 = 1, exactly one stall recorded and no
flushes. -/
theorem claim_C2 :
    (pipeRun 15 (initPipeline prog_loaduse)).halted = true ∧
    (pipeRun 15 (initPipeline prog_loaduse)).regs 3 = 1 ∧
    (pipeRun 15 (initPipeline prog_loaduse)).stalls = 1 ∧
    (pipeRun 15 (initPipeline prog_loaduse)).flushes = 0 := by
  refine ⟨?_, ?_, ?_, ?_⟩ <;> decide

/-- C3: within a cycle the stages run WB, MEM, EX in that order, so when EX
evaluates its forwarding selection the MEM stage has already copied the EX/MEM
latch into the MEM/WB latch.  Hence in the state EX observes, a valid MEM/WB
latch holds the same instruction as the EX/MEM latch, and the MEM_WB case of
get_forward_a / get_forward_b is never selected. -/
theorem claim_C3 (s : Pipeline) :
    ((stage_mem (stage_wb s)).mem_wb.valid = true →
      (stage_mem (stage_wb s)).mem_wb.ins = (stage_mem (stage_wb s)).ex_mem.ins) ∧
    get_forward_a (stage_mem (stage_wb s)) ≠ Forward.MEM_WB ∧
    get_forward_b (stage_mem (stage_wb s)) ≠ Forward.MEM_WB :=
  ⟨fun h => (stage_mem_inv (stage_wb s) h).1,
   forward_a_not_memwb _ (stage_mem_inv (stage_wb s)),
   forward_b_not_memwb _ (stage_mem_inv (stage_wb s))⟩

/-- C3 witness: the invariant instantiated at the concrete state reached after
three cycles of the load-use program, where the MEM/WB latch is valid. -/
theorem claim_C3_witness :
    (stage_mem (stage_wb (pipeRun 3 (initPipeline prog_loaduse)))).mem_wb.valid = true ∧
    ((stage_mem (stage_wb (pipeRun 3 (initPipeline prog_loaduse)))).mem_wb.ins =
      (stage_mem (stage_wb (pipeRun 3 (initPipeline prog_loaduse)))).ex_mem.ins ∧
     get_forward_a (stage_mem (stage_wb (pipeRun 3 (initPipeline prog_loaduse)))) ≠
      Forward.MEM_WB ∧
     get_forward_b (stage_mem (stage_wb (pipeRun 3 (initPipeline prog_loaduse)))) ≠
      Forward.MEM_WB) :=
  ⟨by decide,
   (claim_C3 (pipeRun 3 (initPipeline prog_loaduse))).1 (by decide),
   (claim_C3 (pipeRun 3 (initPipeline prog_loaduse))).2.1,
   (claim_C3 (pipeRun 3 (initPipeline prog_loaduse))).2.2⟩

/-- C4: when EX resolves a taken branch to target t, both pc and next_pc are
set to t; the fetch of that same cycle therefore reads the word at t, and the
next non-stalled, non-halted cycle fetches the very same word again, so the
branch-target instruction enters the pipeline twice. -/
theorem claim_C4 (s : Pipeline) (t : Nat)
    (hhalt : s.halted = false)
    (hstall : detect_load_use_hazard s = false)
    (hvalid : s.id_ex.valid = true)
    (hmw : s.id_ex.ins.mem_write = false)
    (htaken : ex_branch (stage_mem (stage_wb s)) = (true, t))
    (hhalt2 : (cycle s).halted = false) :
    (stage_ex (stage_mem (stage_wb { s with stalled := false }))).pc = t ∧
    (stage_ex (stage_mem (stage_wb { s with stalled := false }))).next_pc = t ∧
    (cycle s).if_id.valid = true ∧ (cycle s).if_id.pc = t ∧
    (cycle s).if_id.instruction = read_word (stage_mem (stage_wb s)).mem t ∧
    (cycle s).pc = t ∧
    (cycle (cycle s)).if_id.valid = true ∧ (cycle (cycle s)).if_id.pc = t ∧
    (cycle (cycle s)).if_id.instruction = (cycle s).if_id.instruction := by
  obtain ⟨r, hl, hwb⟩ := stage_wb_shape s
  obtain ⟨m, mw, ic, hmem⟩ := stage_mem_shape (stage_wb s)
  have hs2 : stage_mem (stage_wb s) =
      { s with regs := r, halted := hl, mem := m, mem_wb := mw, instructions := ic } := by
    rw [hmem, hwb]
  have hms2 : stage_mem (stage_wb { s with stalled := false }) =
      { s with regs := r, halted := hl, mem := m, mem_wb := mw, instructions := ic,
               stalled := false } := by
    rw [stage_wb_set_stalled, stage_mem_set_stalled, hs2]
  have htaken2 : ex_branch
      ({ s with regs := r, halted := hl, mem := m, mem_wb := mw,
                instructions := ic, stalled := false } : Pipeline) = (true, t) := by
    have e : ({ s with regs := r, halted := hl, mem := m, mem_wb := mw,
                       instructions := ic, stalled := false } : Pipeline) =
        { ({ s with regs := r, halted := hl, mem := m, mem_wb := mw,
                    instructions := ic } : Pipeline) with stalled := false } := rfl
    rw [e, ex_branch_set_stalled, ← hs2]
    exact htaken
  obtain ⟨em, fw, hex, hins, hemv⟩ := stage_ex_taken
    ({ s with regs := r, halted := hl, mem := m, mem_wb := mw,
              instructions := ic, stalled := false }) t hvalid htaken2
  rw [hms2, hex]
  rw [cycle_go s hhalt hstall, hms2, hex, stage_id_invalid _ rfl, stage_if_go _ rfl, hs2]
  rw [cycle_go s hhalt hstall, hms2, hex, stage_id_invalid _ rfl, stage_if_go _ rfl] at hhalt2
  have h5' : em.ins.mem_write = false := by rw [hins]; exact hmw
  refine ⟨rfl, rfl, rfl, rfl, rfl, rfl, ?_, ?_, ?_⟩
  · exact (cycle_after_flush _ t hhalt2 rfl rfl rfl h5').1
  · exact (cycle_after_flush _ t hhalt2 rfl rfl rfl h5').2.1
  · exact (cycle_after_flush _ t hhalt2 rfl rfl rfl h5').2.2

/-- C4 witness: after four cycles of the branch program the `beq x1,x1,8`
sits in ID/EX with target 16; the theorem's hypotheses all hold there, and
cycles 5 and 6 both fetch the instruction at address 16. -/
theorem claim_C4_witness :
    detect_load_use_hazard (pipeRun 4 (initPipeline prog_branch)) = false ∧
    ex_branch (stage_mem (stage_wb (pipeRun 4 (initPipeline prog_branch)))) = (true, 16) ∧
    ((cycle (pipeRun 4 (initPipeline prog_branch))).if_id.pc = 16 ∧
     (cycle (cycle (pipeRun 4 (initPipeline prog_branch)))).if_id.pc = 16 ∧
     (cycle (cycle (pipeRun 4 (initPipeline prog_branch)))).if_id.instruction =
       (cycle (pipeRun 4 (initPipeline prog_branch))).if_id.instruction) := by
  have h := claim_C4 (pipeRun 4 (initPipeline prog_branch)) 16 (by decide) (by decide)
    (by decide) (by decide) (by decide) (by decide)
  exact ⟨by decide, by decide, h.2.2.2.1, h.2.2.2.2.2.2.2.1, h.2.2.2.2.2.2.2.2⟩

/-- C5 counterexample: the word 0x00503083 (opcode OP_LOAD, funct3 = 3, an
invalid width) decodes to kind UNKNOWN, yet the decoder leaves reg_write set,
so one single-cycle step writes x1 := 5 (rs1-value 0 plus immediate 5) — the
claimed no-op mutates a register. -/
theorem claim_C5_counterexample :
    (decode 0x00503083 0).type = InsType.UNKNOWN ∧
    (decode 0x00503083 0).reg_write = true ∧
    (initCPU [0x00503083]).regs 1 = 0 ∧
    (step (initCPU [0x00503083])).regs 1 = 5 := by
  refine ⟨?_, ?_, ?_, ?_⟩ <;> decide

/-- C5 (amended): a single-cycle step of an UNKNOWN instruction never touches
memory and advances the PC by exactly 4, and it leaves the register file
unchanged provided the decoded control word has reg_write clear (the decoder
can produce UNKNOWN with reg_write set, in which case the destination register
is clobbered). -/
theorem claim_C5 (s : CPUState) (hh : s.halted = false)
    (hu : (decode (read_word s.mem s.pc) s.pc).type = InsType.UNKNOWN) :
    (step s).mem = s.mem ∧ (step s).pc = wrap (s.pc + 4) ∧
    ((decode (read_word s.mem s.pc) s.pc).reg_write = false → (step s).regs = s.regs) := by
  unfold step
  rw [if_neg (by simp [hh]), if_neg (by simp [hu])]
  refine ⟨?_, ?_, ?_⟩
  · show (cpu_memory_access s.mem _ _ _).2 = s.mem
    unfold cpu_memory_access
    rw [hu]
    split_ifs <;> rfl
  · show (if _ then _ else _) = wrap (s.pc + 4)
    rw [hu]
    simp only [ALU.branch_taken]
    split_ifs <;> simp_all
  · intro hrw
    show cpu_writeback s.regs _ _ = s.regs
    unfold cpu_writeback
    rw [if_neg (by simp [hrw])]

/-- C5 witness: the amended theorem at the all-zero machine, whose fetched
word 0 decodes to UNKNOWN with reg_write clear: one step changes neither
memory nor registers and advances the PC to 4. -/
theorem claim_C5_witness :
    ((initCPU []).halted = false ∧
     (decode (read_word (initCPU []).mem (initCPU []).pc) (initCPU []).pc).type =
       InsType.UNKNOWN) ∧
    ((step (initCPU [])).mem = (initCPU []).mem ∧
     (step (initCPU [])).pc = wrap ((initCPU []).pc + 4) ∧
     ((decode (read_word (initCPU []).mem (initCPU []).pc) (initCPU []).pc).reg_write =
        false → (step (initCPU [])).regs = (initCPU []).regs)) :=
  ⟨⟨by decide, by decide⟩, claim_C5 (initCPU []) (by decide) (by decide)⟩

/-- C6: the spec claims pass 1 advances the text cursor by exactly the bytes
pass 2 emits, for every program including pseudo-instructions with a missing
label.  Refuted: for `bnez x1, nowhere` pass 1 reserves 4 bytes but pass 2
emits nothing; with `beqz x2, missing` followed by a labelled instruction the
assembly "succeeds" with one emitted word while the symbol table places the
label at offset 4 — off by the phantom word pass 1 reserved. -/
theorem claim_C6 :
    (runPass (splitLines "bnez x1, nowhere") true {}).text_addr = 4 ∧
    (assemble "bnez x1, nowhere").text = [] ∧
    (assemble "beqz x2, missing\nafter: addi x1, x0, 1").text.length = 1 ∧
    mapFind? (assemble "beqz x2, missing\nafter: addi x1, x0, 1").symbols "after" =
      some 4 := by
  refine ⟨?_, ?_, ?_, ?_⟩ <;> decide

/-- C7: the spec claims every unresolved label yields a line-numbered error.
Refuted for the pseudo-branches: `bnez x1, nowhere` with an undefined label
produces no error and success stays true (the branch silently disappears),
whereas the base mnemonic `beq x1, x2, gone` does append the promised
line-numbered error and clears success. -/
theorem claim_C7 :
    (assemble "bnez x1, nowhere").errors = [] ∧
    (assemble "bnez x1, nowhere").success = true ∧
    (assemble "beq x1, x2, gone").errors = ["Line 1: Unknown label: gone"] ∧
    (assemble "beq x1, x2, gone").success = false := by
  refine ⟨?_, ?_, ?_, ?_⟩ <;> decide

/-- C8: immediate round trips for all five formats: encoding an in-range
immediate with the assembler's encoder and extracting it with the decoder's
reconstruction returns the original value (I and S: 12-bit signed; B: 13-bit
signed and even; U: 32-bit signed with the low 12 bits zero, i.e. a 20-bit
upper payload; J: 21-bit signed and even). -/
theorem claim_C8 :
    (∀ op rd f3 rs1 : Nat, ∀ imm : Int, op < 128 → rd < 32 → f3 < 8 → rs1 < 32 →
      -2048 ≤ imm → imm < 2048 → imm_i (enc_i op rd f3 rs1 imm) = imm) ∧
    (∀ op f3 rs1 rs2 : Nat, ∀ imm : Int, op < 128 → f3 < 8 → rs1 < 32 → rs2 < 32 →
      -2048 ≤ imm → imm < 2048 → imm_s (enc_s op f3 rs1 rs2 imm) = imm) ∧
    (∀ op f3 rs1 rs2 : Nat, ∀ imm : Int, op < 128 → f3 < 8 → rs1 < 32 → rs2 < 32 →
      -4096 ≤ imm → imm < 4096 → imm % 2 = 0 → imm_b (enc_b op f3 rs1 rs2 imm) = imm) ∧
    (∀ op rd : Nat, ∀ imm : Int, op < 128 → rd < 32 →
      -2147483648 ≤ imm → imm < 2147483648 → imm % 4096 = 0 →
      imm_u (enc_u op rd imm) = imm) ∧
    (∀ op rd : Nat, ∀ imm : Int, op < 128 → rd < 32 →
      -1048576 ≤ imm → imm < 1048576 → imm % 2 = 0 → imm_j (enc_j op rd imm) = imm) :=
  ⟨fun op rd f3 rs1 imm hop hrd hf3 hrs1 h1 h2 =>
    imm_i_enc_i op rd f3 rs1 imm hop hrd hf3 hrs1 h1 h2,
   fun op f3 rs1 rs2 imm hop hf3 hrs1 hrs2 h1 h2 =>
    imm_s_enc_s op f3 rs1 rs2 imm hop hf3 hrs1 hrs2 h1 h2,
   fun op f3 rs1 rs2 imm hop hf3 hrs1 hrs2 h1 h2 hev =>
    imm_b_enc_b op f3 rs1 rs2 imm hop hf3 hrs1 hrs2 h1 h2 hev,
   fun op rd imm hop hrd h1 h2 hm => imm_u_enc_u op rd imm hop hrd h1 h2 hm,
   fun op rd imm hop hrd h1 h2 hev => imm_j_enc_j op rd imm hop hrd h1 h2 hev⟩

/-- C8 witness: one concrete round trip per format, at the extreme negative
immediate of each range. -/
theorem claim_C8_witness :
    imm_i (enc_i 19 1 0 2 (-2048)) = -2048 ∧
    imm_s (enc_s 35 2 1 2 (-17)) = -17 ∧
    imm_b (enc_b 99 0 1 2 (-4096)) = -4096 ∧
    imm_u (enc_u 55 3 (-2147483648)) = -2147483648 ∧
    imm_j (enc_j 111 1 (-1048576)) = -1048576 :=
  ⟨claim_C8.1 19 1 0 2 (-2048) (by decide) (by decide) (by decide) (by decide)
    (by decide) (by decide),
   claim_C8.2.1 35 2 1 2 (-17) (by decide) (by decide) (by decide) (by decide)
    (by decide) (by decide),
   claim_C8.2.2.1 99 0 1 2 (-4096) (by decide) (by decide) (by decide) (by decide)
    (by decide) (by decide) (by decide),
   claim_C8.2.2.2.1 55 3 (-2147483648) (by decide) (by decide) (by decide) (by decide)
    (by decide),
   claim_C8.2.2.2.2 111 1 (-1048576) (by decide) (by decide) (by decide) (by decide)
    (by decide)⟩

/-- C9: the ALU's division semantics.  Divisor 0: DIV and DIVU give
0xFFFFFFFF, REM and REMU give the dividend.  Signed overflow INT_MIN / -1:
DIV gives INT_MIN, REM gives 0.  Otherwise DIV/REM are the truncating signed
quotient and remainder of the operands read as two's-complement values, and
DIVU/REMU are the unsigned quotient and remainder.  Every case is total, so
no input faults. -/
theorem claim_C9 (a b : Nat) (ha : a < 4294967296) (hb : b < 4294967296) :
    (ALU.execute AluOp.DIV a 0 = 0xFFFFFFFF ∧
     ALU.execute AluOp.DIVU a 0 = 0xFFFFFFFF ∧
     ALU.execute AluOp.REM a 0 = a ∧
     ALU.execute AluOp.REMU a 0 = a) ∧
    (ALU.execute AluOp.DIV 0x80000000 0xFFFFFFFF = 0x80000000 ∧
     ALU.execute AluOp.REM 0x80000000 0xFFFFFFFF = 0) ∧
    (b ≠ 0 → ¬(a = 0x80000000 ∧ b = 0xFFFFFFFF) →
      toSigned (ALU.execute AluOp.DIV a b) = (toSigned a).tdiv (toSigned b) ∧
      toSigned (ALU.execute AluOp.REM a b) = (toSigned a).tmod (toSigned b)) ∧
    (b ≠ 0 → ALU.execute AluOp.DIVU a b = a / b ∧ ALU.execute AluOp.REMU a b = a % b) := by
  have hz : toSigned 0 = 0 := rfl
  have hsa := toSigned_bounds a ha
  have hsb := toSigned_bounds b hb
  refine ⟨⟨?_, ?_, ?_, ?_⟩, ⟨by decide, by decide⟩, ?_, ?_⟩
  · simp [ALU.execute, hz]
  · simp [ALU.execute]
  · simp [ALU.execute, hz, toWord_toSigned a ha]
  · simp [ALU.execute]
  · intro hb0 hexc
    have hsbz : toSigned b ≠ 0 := fun h => hb0 ((toSigned_eq_zero b hb).mp h)
    have hnexc : ¬(toSigned a = -2147483648 ∧ toSigned b = -1) := by
      intro ⟨hx, hy⟩
      exact hexc ⟨(toSigned_eq_min a ha).mp hx, (toSigned_eq_neg_one b hb).mp hy⟩
    constructor
    · have e : ALU.execute AluOp.DIV a b = toWord ((toSigned a).tdiv (toSigned b)) := by
        simp only [ALU.execute]
        rw [if_neg hsbz, if_neg hnexc]
      rw [e]
      have hr := tdiv_range (toSigned a) (toSigned b) hsa.1 hsa.2 hsb.1 hsb.2 hsbz hnexc
      exact toSigned_toWord _ hr.1 hr.2
    · have e : ALU.execute AluOp.REM a b = toWord ((toSigned a).tmod (toSigned b)) := by
        simp only [ALU.execute]
        rw [if_neg hsbz, if_neg hnexc]
      rw [e]
      have hr := tmod_range (toSigned a) (toSigned b) hsa.1 hsa.2 hsb.1 hsb.2 hsbz
      exact toSigned_toWord _ hr.1 hr.2
  · intro hb0
    constructor
    · simp [ALU.execute, hb0]
    · simp [ALU.execute, hb0]

/-- C9 witness: the division semantics at the concrete operands a = 10,
b = 3 (so 10 / 3 and 10 mod 3 in both signednesses, plus the divisor-zero and
overflow special cases). -/
theorem claim_C9_witness :
    ((10 : Nat) < 4294967296 ∧ (3 : Nat) < 4294967296) ∧
    ((ALU.execute AluOp.DIV 10 0 = 0xFFFFFFFF ∧
      ALU.execute AluOp.DIVU 10 0 = 0xFFFFFFFF ∧
      ALU.execute AluOp.REM 10 0 = 10 ∧
      ALU.execute AluOp.REMU 10 0 = 10) ∧
     (ALU.execute AluOp.DIV 0x80000000 0xFFFFFFFF = 0x80000000 ∧
      ALU.execute AluOp.REM 0x80000000 0xFFFFFFFF = 0) ∧
     ((3 : Nat) ≠ 0 → ¬((10 : Nat) = 0x80000000 ∧ (3 : Nat) = 0xFFFFFFFF) →
       toSigned (ALU.execute AluOp.DIV 10 3) = (toSigned 10).tdiv (toSigned 3) ∧
       toSigned (ALU.execute AluOp.REM 10 3) = (toSigned 10).tmod (toSigned 3)) ∧
     ((3 : Nat) ≠ 0 → ALU.execute AluOp.DIVU 10 3 = 10 / 3 ∧
       ALU.execute AluOp.REMU 10 3 = 10 % 3)) :=
  ⟨⟨by decide, by decide⟩, claim_C9 10 3 (by decide) (by decide)⟩

/-- C10: on the branch program `addi x1,x0,1; addi x2,x0,2; beq x1,x1,skip;
addi x2,x0,99; skip: addi x3,x2,0; ecall`, the pipeline halts with x2 = 2,
x3 = 2, and the flushes counter equals 2 (the two speculatively fetched
instructions after the taken branch are flushed). -/
theorem claim_C10 :
    (pipeRun 20 (initPipeline prog_branch)).halted = true ∧
    (pipeRun 20 (initPipeline prog_branch)).regs 2 = 2 ∧
    (pipeRun 20 (initPipeline prog_branch)).regs 3 = 2 ∧
    (pipeRun 20 (initPipeline prog_branch)).flushes = 2 := by
  refine ⟨?_, ?_, ?_, ?_⟩ <;> decide

end RV32
